import Mathlib

/-!
Verification development for the interactive cat component
(`src/components/LonelyCat.tsx`, SVG-texture variant): a shallow embedding
of the behavior-tree tick loop, the Matter-physics velocity commands, the
SVG texture generators with their memoization cache, and the
texture-registration ("addCanvas") resource layer, together with theorems
about the properties the specification states.

Modelling conventions:
* JavaScript numbers are modelled as `ℚ` (the source constants `0.05`,
  `0.1`, `3`, `30000`, … are exact rationals).
* Transcendental library calls (`Math.sin`, `Math.cos`, `Math.hypot`,
  `Math.atan2`, `Math.PI`) are modelled by an explicit function record
  `JsMath`; theorems that depend on their metric meaning assume the
  defining property (`HypotOk`, `CosSinOk`) pointwise at the arguments
  the code actually passes.
* `Math.random()` draws are explicit per-event inputs (`TickEnv`,
  `KeyEnv`), constrained to `[0,1)` where a theorem needs it.
* `Date.now()` is an explicit `now : ℤ` (milliseconds) input per event.
-/

set_option maxRecDepth 4000

/- The `Rat` field operations are `@[irreducible]` in Mathlib, which
prevents `decide` from evaluating concrete rational arithmetic at its
default transparency (where `Nat` literal arithmetic is folded
efficiently).  Restoring the default reducibility of these operations
changes nothing about the kernel's semantics; it only lets concrete
evaluations reduce. -/
set_option allowUnsafeReducibility true in
attribute [semireducible] Rat.add Rat.sub Rat.mul Rat.div Rat.inv

namespace LonelyCat

/-- 2-D vector of rationals, used for positions, velocities and targets
(source `Velocity` interface and `{x, y}` literals). -/
structure V2 where
  x : ℚ
  y : ℚ
deriving DecidableEq

/-- Behavior3js node tick statuses used by the component
(`b3.SUCCESS`, `b3.FAILURE`, `b3.RUNNING`). -/
inductive B3Status where
  | success
  | failure
  | running
deriving DecidableEq

/-- The `eyeState: 'open' | 'closed'` field of the source `AnimationState`. -/
inductive EyeState where
  | opened
  | closed
deriving DecidableEq

/-- String form of an eye state, as interpolated into texture cache keys
by the source (`'open'` / `'closed'`). -/
def EyeState.str : EyeState → String
  | .opened => "open"
  | .closed => "closed"

/-- Record of the JavaScript math library functions the component calls.
The component's logic treats them as opaque deterministic functions; the
theorems below constrain them pointwise where their metric meaning
matters.  `pi` models `Math.PI` (a rational double in JavaScript). -/
structure JsMath where
  sin : ℚ → ℚ
  cos : ℚ → ℚ
  hypot : ℚ → ℚ → ℚ
  atan2 : ℚ → ℚ → ℚ
  pi : ℚ

/-- Defining property of `Math.hypot x y` at a point: nonnegative and its
square is `x² + y²`. -/
abbrev HypotOk (jm : JsMath) (x y : ℚ) : Prop :=
  0 ≤ jm.hypot x y ∧ (jm.hypot x y) ^ 2 = x ^ 2 + y ^ 2

/-- Defining property of `(Math.cos θ, Math.sin θ)` at a point: it lies on
the unit circle. -/
abbrev CosSinOk (jm : JsMath) (θ : ℚ) : Prop :=
  (jm.cos θ) ^ 2 + (jm.sin θ) ^ 2 = 1

/-- JavaScript `Math.round` on rationals: `⌊x + 1/2⌋` (ties toward +∞),
used by the moving-texture cache key. -/
def jsRound (q : ℚ) : ℤ := ⌊q + 1 / 2⌋

/-- State of the source `SVGTextureManager`: the memoization map
`textureCache : Map<string, string>` (modelled as an association list with
most-recent binding first; the source only ever inserts a key that is not
yet present) and the `createdTextures : Set<string>` idempotence guard. -/
structure SVGTextureManager where
  textureCache : List (String × String)
  createdTextures : List String
deriving DecidableEq

/-- Dynamic content of `generateIdleTexture`'s SVG string.  Every
frame/eye-state dependent quantity of the source is computed with its
exact coefficients (`0.05 = 1/20`, `0.015 = 3/200`, `0.02 = 1/50`,
`0.03 = 3/100`) and interpolated in source order; the surrounding static
markup (gradients, fur patterns, fixed geometry) carries no state and is
summarized by short tags. -/
def generateIdleSvg (jm : JsMath) (frame : ℕ) (eyeState : EyeState) : String :=
  let f : ℚ := frame
  let breathingScale : ℚ := 1 + jm.sin (f * (1 / 20)) * (3 / 200)
  let tailSway : ℚ := jm.sin (f * (1 / 50)) * 12
  let eyeHeight : ℚ := if eyeState = .closed then 2 else 9 + jm.sin (f * (3 / 100)) * (1 / 2)
  let pupilHeight : ℚ := if eyeState = .closed then 1 / 2 else max 2 (eyeHeight - 4)
  let hiliteRy : ℚ := max (4 / 5) (eyeHeight - 6)
  let bodyRx : ℚ := 55 * breathingScale
  let bodyRy : ℚ := 42 * breathingScale
  let deepRx : ℚ := 52 * breathingScale
  let deepRy : ℚ := 38 * breathingScale
  let furRx : ℚ := 50 * breathingScale
  let furRy : ℚ := 36 * breathingScale
  let tabbyRx : ℚ := 48 * breathingScale
  let tabbyRy : ℚ := 35 * breathingScale
  let eyeWhiteRy : ℚ := eyeHeight + 1
  s!"<svg width=\"300\" height=\"300\"><tail transform=\"rotate({tailSway})\"/><body rx=\"{bodyRx}\" ry=\"{bodyRy}\" scale=\"{breathingScale}\"/><deepFur rx=\"{deepRx}\" ry=\"{deepRy}\"/><fur rx=\"{furRx}\" ry=\"{furRy}\"/><tabby rx=\"{tabbyRx}\" ry=\"{tabbyRy}\"/><eyeWhites ry=\"{eyeWhiteRy}\"/><iris ry=\"{eyeHeight}\"/><pupils ry=\"{pupilHeight}\"/><hilites ry=\"{hiliteRy}\"/></svg>"

/-- Dynamic content of `generateMovingTexture`'s SVG string, given the
`speed` and `direction` already derived from the velocity.  Exact source
coefficients: `0.4 = 2/5`, `0.25 = 1/4`, `0.5 = 1/2`. -/
def generateMovingSvg (jm : JsMath) (speed direction : ℚ) (frame : ℕ) : String :=
  let f : ℚ := frame
  let bodyLean : ℚ := min (speed * 6) 18
  let legCycle : ℚ := jm.sin (f * (2 / 5)) * 8
  let tailTrail : ℚ := -direction * 25 + jm.sin (f * (1 / 4)) * 15
  let earFlop : ℚ := min (speed * 2) 8
  let blurDev : ℚ := min (speed * (1 / 2)) 2
  let groupRotate : ℚ := bodyLean * jm.cos direction
  let shadowCx : ℚ := 100 + speed * 2
  let shadowRx : ℚ := 70 + speed * 3
  let bodyRx : ℚ := 55 + speed * 2
  let bodyRy : ℚ := 42 - speed * 1
  let furRx : ℚ := 52 + speed * 2
  let furRy : ℚ := 38 - speed * 1
  let tabbyRx : ℚ := 48 + speed * 2
  let tabbyRy : ℚ := 35 - speed * 1
  let backLegA : ℚ := 82 + legCycle
  let backLegB : ℚ := 118 - legCycle
  let frontLegA : ℚ := 78 - legCycle
  let frontLegB : ℚ := 122 + legCycle
  let whiskCtrlX : ℚ := 50 - speed * 4
  let whiskUpY : ℚ := 96 - speed * 2
  let whiskTipX : ℚ := 45 - speed * 5
  let whiskDownY : ℚ := 112 + speed * 2
  let whiskCtrlXr : ℚ := 150 + speed * 4
  let whiskTipXr : ℚ := 155 + speed * 5
  s!"<svg width=\"300\" height=\"300\"><blur dev=\"{blurDev}\"/><g rotate=\"{groupRotate}\"><shadow cx=\"{shadowCx}\" rx=\"{shadowRx}\"/><tail transform=\"rotate({tailTrail})\"/><body rx=\"{bodyRx}\" ry=\"{bodyRy}\"/><fur rx=\"{furRx}\" ry=\"{furRy}\"/><tabby rx=\"{tabbyRx}\" ry=\"{tabbyRy}\"/><legs a=\"{backLegA}\" b=\"{backLegB}\" c=\"{frontLegA}\" d=\"{frontLegB}\"/><ears flop=\"{earFlop}\"/><whiskers lx=\"{whiskCtrlX}\" ly=\"{whiskUpY}\" tx=\"{whiskTipX}\" by=\"{whiskDownY}\" rx=\"{whiskCtrlXr}\" rt=\"{whiskTipXr}\"/></g></svg>"

/-- Dynamic content of `generateSleepingTexture`'s SVG string.  Exact
source coefficients: `0.015 = 3/200`, `0.04 = 1/25`, `0.008 = 1/125`,
`0.01 = 1/100`. -/
def generateSleepingSvg (jm : JsMath) (frame : ℕ) : String :=
  let f : ℚ := frame
  let breathingScale : ℚ := 1 + jm.sin (f * (3 / 200)) * (1 / 25)
  let dreamFloat : ℚ := jm.sin (f * (1 / 125)) * 2
  let bodyRx : ℚ := 65 * breathingScale
  let bodyRy : ℚ := 48 * breathingScale
  let furRx : ℚ := 60 * breathingScale
  let furRy : ℚ := 43 * breathingScale
  let tabbyRx : ℚ := 55 * breathingScale
  let tabbyRy : ℚ := 38 * breathingScale
  let dreamOpacity : ℚ := 3 / 5 + jm.sin (f * (1 / 100)) * (1 / 5)
  let breathRx : ℚ := 8 * breathingScale
  let breathRy : ℚ := 3 * breathingScale
  let breathOpacity : ℚ := 3 / 10 + jm.sin (f * (3 / 200)) * (1 / 10)
  s!"<svg width=\"300\" height=\"300\"><body rx=\"{bodyRx}\" ry=\"{bodyRy}\" scale=\"{breathingScale}\"/><fur rx=\"{furRx}\" ry=\"{furRy}\"/><tabby rx=\"{tabbyRx}\" ry=\"{tabbyRy}\"/><dreams opacity=\"{dreamOpacity}\" translate=\"{dreamFloat}\"/><breath rx=\"{breathRx}\" ry=\"{breathRy}\" opacity=\"{breathOpacity}\"/></svg>"

/-- Cache key of the idle generator: `idle-${frame}-${eyeState}`. -/
def idleCacheKey (frame : ℕ) (eyeState : EyeState) : String :=
  s!"idle-{frame}-{eyeState.str}"

/-- Cache key of the moving generator:
`moving-${round(direction*10)}-${round(speed*10)}-${frame}`. -/
def movingCacheKey (jm : JsMath) (velocity : V2) (frame : ℕ) : String :=
  let rdir := jsRound (jm.atan2 velocity.y velocity.x * 10)
  let rspeed := jsRound (jm.hypot velocity.x velocity.y * 10)
  s!"moving-{rdir}-{rspeed}-{frame}"

/-- Cache key of the sleeping generator: `sleeping-${frame}`. -/
def sleepingCacheKey (frame : ℕ) : String := s!"sleeping-{frame}"

/-- Source `SVGTextureManager.generateIdleTexture`: compute the cache key
`idle-${frame}-${eyeState}`, return the cached string on a hit, otherwise
build the SVG, store it under the key and return it. -/
def generateIdleTexture (jm : JsMath) (m : SVGTextureManager) (frame : ℕ)
    (eyeState : EyeState) : String × SVGTextureManager :=
  let cacheKey := idleCacheKey frame eyeState
  match m.textureCache.lookup cacheKey with
  | some svg => (svg, m)
  | none =>
      let svg := generateIdleSvg jm frame eyeState
      (svg, { m with textureCache := (cacheKey, svg) :: m.textureCache })

/-- Source `SVGTextureManager.generateMovingTexture`: derive
`speed = hypot v`, `direction = atan2 vy vx`, key
`moving-${round(direction*10)}-${round(speed*10)}-${frame}`, then the
same cache discipline as the idle generator. -/
def generateMovingTexture (jm : JsMath) (m : SVGTextureManager) (velocity : V2)
    (frame : ℕ) : String × SVGTextureManager :=
  let speed := jm.hypot velocity.x velocity.y
  let direction := jm.atan2 velocity.y velocity.x
  let cacheKey := movingCacheKey jm velocity frame
  match m.textureCache.lookup cacheKey with
  | some svg => (svg, m)
  | none =>
      let svg := generateMovingSvg jm speed direction frame
      (svg, { m with textureCache := (cacheKey, svg) :: m.textureCache })

/-- Source `SVGTextureManager.generateSleepingTexture`: key
`sleeping-${frame}` and the same cache discipline. -/
def generateSleepingTexture (jm : JsMath) (m : SVGTextureManager)
    (frame : ℕ) : String × SVGTextureManager :=
  let cacheKey := sleepingCacheKey frame
  match m.textureCache.lookup cacheKey with
  | some svg => (svg, m)
  | none =>
      let svg := generateSleepingSvg jm frame
      (svg, { m with textureCache := (cacheKey, svg) :: m.textureCache })

/-- One call to one of the three texture generators, for stating cache
properties under arbitrary interleavings. -/
inductive TexCall where
  | idle (frame : ℕ) (eyeState : EyeState)
  | moving (velocity : V2) (frame : ℕ)
  | sleeping (frame : ℕ)

/-- Apply one generator call to a manager state. -/
def applyTexCall (jm : JsMath) (m : SVGTextureManager) :
    TexCall → String × SVGTextureManager
  | .idle frame eyeState => generateIdleTexture jm m frame eyeState
  | .moving velocity frame => generateMovingTexture jm m velocity frame
  | .sleeping frame => generateSleepingTexture jm m frame

/-- Thread a list of generator calls through the manager, keeping only the
final cache state. -/
def runTexCalls (jm : JsMath) (m : SVGTextureManager) (cs : List TexCall) :
    SVGTextureManager :=
  cs.foldl (fun acc c => (applyTexCall jm acc c).2) m

/-- Environment-side texture resources: `pending` models in-flight
`Image` loads created by `createTextureFromSVG` (blob URL assigned, the
`onload` callback not yet fired); `phaserTextures` models the rendering
backend's `textures` registry (`exists` / `addCanvas`); `addCanvasLog`
records every `textures.addCanvas` invocation in order; `warnLog` records
`console.warn` messages from the `catch` clause. -/
structure TextureBackend where
  pending : List (String × String)
  phaserTextures : List String
  addCanvasLog : List String
  warnLog : List String
deriving DecidableEq

/-- Synchronous part of `SVGTextureManager.createTextureFromSVG`: an
already-created key resolves immediately with no effect; otherwise the key
is added to `createdTextures` *before* the asynchronous image load starts
("mark as being created to prevent duplicates") and a load becomes
pending.  The returned promise always resolves, never rejects. -/
def createTextureFromSVG (m : SVGTextureManager) (b : TextureBackend)
    (key svgContent : String) : SVGTextureManager × TextureBackend :=
  if key ∈ m.createdTextures then (m, b)
  else
    ({ m with createdTextures := key :: m.createdTextures },
     { b with pending := b.pending ++ [(key, svgContent)] })

/-- Body of the `try` block inside the `img.onload` handler:
`ctx.drawImage` / `textures.addCanvas` may throw (`drawFails` models any
such throw); on the normal path registration happens only if the key does
not already exist in the backend registry. -/
def realizeAttempt (drawFails : Bool) (b : TextureBackend) (key : String) :
    Except String TextureBackend :=
  if drawFails then .error s!"Failed to create texture {key}"
  else if key ∈ b.phaserTextures then .ok b
  else .ok { b with
              phaserTextures := key :: b.phaserTextures,
              addCanvasLog := b.addCanvasLog ++ [key] }

/-- The `img.onload` handler for one pending load: the `try`/`catch`
around the realization turns any throw into a `console.warn` entry, then
the promise resolves.  A completion for a key with no pending load is a
no-op (completions may arrive in any order, at most one per pending
load). -/
def imageLoadComplete (b : TextureBackend) (key : String)
    (drawFails : Bool) : TextureBackend :=
  if (b.pending.lookup key).isSome then
    let b1 := { b with pending := b.pending.eraseP (fun p => p.1 == key) }
    match realizeAttempt drawFails b1 key with
    | .ok b2 => b2
    | .error msg => { b1 with warnLog := b1.warnLog ++ [msg] }
  else b

/-- Events at the texture-realization layer: a realization request for a
key (the synchronous prefix of `createTextureFromSVG`) or the completion
of one in-flight image load (its `onload` firing, possibly throwing while
drawing). -/
inductive TexEvent where
  | request (key svgContent : String)
  | complete (key : String) (drawFails : Bool)

/-- Step of the texture-realization layer. -/
def texStep (st : SVGTextureManager × TextureBackend) :
    TexEvent → SVGTextureManager × TextureBackend
  | .request key svgContent => createTextureFromSVG st.1 st.2 key svgContent
  | .complete key drawFails => (st.1, imageLoadComplete st.2 key drawFails)

/-- Initial texture-layer state: empty cache, no created keys, nothing
pending or registered. -/
def texInit : SVGTextureManager × TextureBackend :=
  (⟨[], []⟩, ⟨[], [], [], []⟩)

/-- Run a sequence of texture-layer events from the initial state. -/
def runTexEvents (es : List TexEvent) : SVGTextureManager × TextureBackend :=
  es.foldl texStep texInit

/-- The behavior-tree blackboard keys the component uses
(`target`, `anticipationStarted`, `userProximity`, `cursorPosition`).
An unset key reads as `undefined` (falsy): `none` / `false`. -/
structure Blackboard where
  target : Option V2
  anticipationStarted : Bool
  userProximity : Bool
  cursorPosition : Option V2
deriving DecidableEq

/-- The source `AnimationState` record (the `breathingPhase` and
`tailSwayPhase` fields are initialized to 0 and never read or written
afterwards; they are kept for shape fidelity). -/
structure AnimationState where
  frame : ℕ
  blinkTimer : ℚ
  breathingPhase : ℚ
  tailSwayPhase : ℚ
  lastInteraction : ℤ
  isMoving : Bool
  isSleeping : Bool
  eyeState : EyeState
  currentTexture : String
deriving DecidableEq

/-- The cat's Matter physics body: position and velocity (units per tick),
plus the texture key the sprite currently displays (`setTexture`). -/
structure CatBody where
  pos : V2
  vel : V2
  spriteTexture : String
deriving DecidableEq

/-- Whole scene state: camera dimensions (fixed at mount), blackboard,
animation state, physics body, SVG texture manager and backend texture
resources. -/
structure SceneState where
  width : ℚ
  height : ℚ
  blackboard : Blackboard
  animationState : AnimationState
  cat : CatBody
  svgTextureManager : SVGTextureManager
  textures : TextureBackend
deriving DecidableEq

/-- Per-tick external inputs: `Date.now()`, the frame delta, and every
`Math.random()` draw a tick can consume, in source order.  `loadFails`
models whether the draw/registration step of a texture realized during
this tick's `updateCatTexture` throws. -/
structure TickEnv where
  now : ℤ
  delta : ℚ
  rBlink : ℚ
  rProxBlink : ℚ
  rWanderCenter : ℚ
  rWanderCenterSpeed : ℚ
  rWanderMove : ℚ
  rWanderAngle : ℚ
  rWanderSpeed : ℚ
  loadFails : Bool

/-- `EnhancedMoveToTarget.tick`: decline when no target; on the first tick
with a fresh target play the anticipation tween and set
`anticipationStarted` (no motion yet); within `ARRIVAL_RADIUS = 10` stop,
clear `target` and `anticipationStarted`, stamp `lastInteraction`;
otherwise ramp speed by at most `acceleration = 0.1` toward
`min(maxSpeed = 3, dist * 0.05)` and set velocity along the normalized
direction. -/
def enhancedMoveToTargetTick (jm : JsMath) (env : TickEnv) (s : SceneState) :
    B3Status × SceneState :=
  match s.blackboard.target with
  | none => (.failure, s)
  | some target =>
      let cat := s.cat
      let dx := target.x - cat.pos.x
      let dy := target.y - cat.pos.y
      let dist := jm.hypot dx dy
      if s.blackboard.anticipationStarted = false then
        (.running, { s with blackboard.anticipationStarted := true })
      else if dist < 10 then
        (.success,
         { s with
            cat.vel := ⟨0, 0⟩
            blackboard.target := none
            blackboard.anticipationStarted := false
            animationState.lastInteraction := env.now })
      else
        let maxSpeed : ℚ := 3
        let acceleration : ℚ := 1 / 10
        let currentSpeed := jm.hypot cat.vel.x cat.vel.y
        let targetSpeed := min maxSpeed (dist * (1 / 20))
        let newSpeed := min (currentSpeed + acceleration) targetSpeed
        (.running,
         { s with cat.vel := ⟨dx / dist * newSpeed, dy / dist * newSpeed⟩ })

/-- `SleepMode.tick`: succeed (entering sleep and zeroing velocity) when
more than 30000 ms have elapsed since the last interaction, decline
otherwise. -/
def sleepModeTick (env : TickEnv) (s : SceneState) : B3Status × SceneState :=
  let timeSinceLastInteraction := env.now - s.animationState.lastInteraction
  if timeSinceLastInteraction > 30000 then
    (.success, { s with animationState.isSleeping := true, cat.vel := ⟨0, 0⟩ })
  else
    (.failure, s)

/-- `EnhancedWander.tick`: decline while sleeping; with probability 0.02
when beyond 40% of the smaller viewport dimension from the center, head
back toward the center at speed `0.3 + random()*0.3`; else with
probability 0.005 pick a random direction at speed `0.5 + random()*0.5`;
always report running otherwise. -/
def enhancedWanderTick (jm : JsMath) (env : TickEnv) (s : SceneState) :
    B3Status × SceneState :=
  if s.animationState.isSleeping then (.failure, s)
  else
    let cat := s.cat
    let centerX := s.width / 2
    let centerY := s.height / 2
    let distanceFromCenter := jm.hypot (cat.pos.x - centerX) (cat.pos.y - centerY)
    let maxDistance := min s.width s.height * (2 / 5)
    if distanceFromCenter > maxDistance ∧ env.rWanderCenter < 1 / 50 then
      let angleToCenter := jm.atan2 (centerY - cat.pos.y) (centerX - cat.pos.x)
      let speed := 3 / 10 + env.rWanderCenterSpeed * (3 / 10)
      (.running,
       { s with cat.vel := ⟨jm.cos angleToCenter * speed, jm.sin angleToCenter * speed⟩ })
    else if env.rWanderMove < 1 / 200 then
      let angle := env.rWanderAngle * jm.pi * 2
      let speed := 1 / 2 + env.rWanderSpeed * (1 / 2)
      (.running,
       { s with cat.vel := ⟨jm.cos angle * speed, jm.sin angle * speed⟩ })
    else
      (.running, s)

/-- `ProximityResponse.tick`: when the user cursor is near, refresh
`lastInteraction`, clear sleep, blink with probability 0.02, and succeed
(consuming the tick); decline otherwise. -/
def proximityResponseTick (env : TickEnv) (s : SceneState) :
    B3Status × SceneState :=
  if s.blackboard.userProximity then
    let s1 := { s with
                 animationState.lastInteraction := env.now
                 animationState.isSleeping := false }
    if env.rProxBlink < 1 / 50 then
      (.success, { s1 with animationState.eyeState := .closed })
    else
      (.success, s1)
  else
    (.failure, s)

/-- Behavior3js `Priority` composite: execute children left to right,
return the first status that is not `FAILURE`; if all children fail,
fail.  State mutations of executed children are threaded through. -/
def priorityTick (children : List (SceneState → B3Status × SceneState))
    (s : SceneState) : B3Status × SceneState :=
  match children with
  | [] => (.failure, s)
  | c :: rest =>
      let r := c s
      if r.1 = .failure then priorityTick rest r.2 else r

/-- The children of the tree root, in the exact construction order of
`setupEnhancedBehaviorTree`. -/
def treeChildren (jm : JsMath) (env : TickEnv) :
    List (SceneState → B3Status × SceneState) :=
  [enhancedMoveToTargetTick jm env, proximityResponseTick env,
   sleepModeTick env, enhancedWanderTick jm env]

/-- One tick of the whole behavior tree (`this.tree.tick`). -/
def treeTick (jm : JsMath) (env : TickEnv) (s : SceneState) :
    B3Status × SceneState :=
  priorityTick (treeChildren jm env) s

/-- `CatScene.updateCatTexture`: derive the display state from
`isSleeping` (which wins) and then `speed > 0.5`; generate the matching
SVG through the cache; if the derived key differs from `currentTexture`,
realize the texture (`await createTextureFromSVG`, whose image load we
linearize here since the method is awaited before the swap), call
`setTexture`, and record the new key in `currentTexture`.  Phaser's
`setTexture` with an unregistered key displays the `__MISSING`
placeholder rather than throwing. -/
def updateCatTexture (jm : JsMath) (drawFails : Bool) (s : SceneState) :
    SceneState :=
  let velocity := s.cat.vel
  let speed := jm.hypot velocity.x velocity.y
  let frame := s.animationState.frame
  let swap (svgContent textureKey : String) (s1 : SceneState) : SceneState :=
    if s1.animationState.currentTexture ≠ textureKey then
      let r :=
        createTextureFromSVG s1.svgTextureManager s1.textures textureKey svgContent
      let b2 := imageLoadComplete r.2 textureKey drawFails
      { s1 with
          svgTextureManager := r.1
          textures := b2
          cat.spriteTexture :=
            if textureKey ∈ b2.phaserTextures then textureKey else "__MISSING"
          animationState.currentTexture := textureKey }
    else s1
  if s.animationState.isSleeping then
    let r := generateSleepingTexture jm s.svgTextureManager frame
    swap r.1 s!"cat-sleeping-{frame % 60}" { s with svgTextureManager := r.2 }
  else if speed > 1 / 2 then
    let r := generateMovingTexture jm s.svgTextureManager velocity frame
    swap r.1 s!"cat-moving-{frame % 60}"
      { s with svgTextureManager := r.2, animationState.isMoving := true }
  else
    let eye := s.animationState.eyeState
    let r := generateIdleTexture jm s.svgTextureManager frame eye
    swap r.1 s!"cat-idle-{frame % 60}-{eye.str}"
      { s with svgTextureManager := r.2, animationState.isMoving := false }

/-- Matter.js integration between scene updates under the component's
configuration (`setFrictionAir(0.05)`, zero gravity, no collision in the
interior): air resistance scales velocity by `1 - 0.05` and the position
advances by the velocity (units per tick).  This models the physics
engine, which is a library external to the repository. -/
def physicsStep (s : SceneState) : SceneState :=
  { s with
      cat.vel := ⟨s.cat.vel.x * (1 - 1 / 20), s.cat.vel.y * (1 - 1 / 20)⟩
      cat.pos := ⟨s.cat.pos.x + s.cat.vel.x * (1 - 1 / 20),
                  s.cat.pos.y + s.cat.vel.y * (1 - 1 / 20)⟩ }

/-- `CatScene.updateNaturalAnimations`: accumulate the blink timer by the
frame delta; past the randomized threshold `3000 + random()*2000`, blink
(close the eyes; a 150 ms delayed call reopens them, not modelled as a
state step) unless sleeping, and reset the timer.  The micro-movement,
ear-twitch and body-shift branches only start visual tweens and touch no
modelled state. -/
def updateNaturalAnimations (env : TickEnv) (s : SceneState) : SceneState :=
  let bt := s.animationState.blinkTimer + env.delta
  if bt > 3000 + env.rBlink * 2000 then
    if s.animationState.isSleeping = false then
      { s with animationState.blinkTimer := 0, animationState.eyeState := .closed }
    else
      { s with animationState.blinkTimer := 0 }
  else
    { s with animationState.blinkTimer := bt }

/-- The scene state at the moment the behavior tree is ticked within one
host frame: after the physics engine advanced the body, `frame` was
incremented and the natural-animation timers ran. -/
def stateAtTree (env : TickEnv) (s : SceneState) : SceneState :=
  let s1 := physicsStep s
  let s2 := { s1 with animationState.frame := s1.animationState.frame + 1 }
  updateNaturalAnimations env s2

/-- One host frame: the physics engine advances the body, then
`CatScene.update` runs — increment `frame`, advance the natural-animation
timers, tick the behavior tree, and every third frame refresh the cat's
texture. -/
def sceneTick (jm : JsMath) (env : TickEnv) (s : SceneState) : SceneState :=
  let s3 := stateAtTree env s
  let s4 := (treeTick jm env s3).2
  if s4.animationState.frame % 3 = 0 then updateCatTexture jm env.loadFails s4
  else s4

/-- `pointerdown` handler: set the movement target to the pointer's world
position, stamp `lastInteraction`, wake the cat (the click-feedback and
attention tweens touch no modelled state). -/
def pointerdownStep (p : V2) (now : ℤ) (s : SceneState) : SceneState :=
  { s with
      blackboard.target := some p
      animationState.lastInteraction := now
      animationState.isSleeping := false }

/-- `pointermove` handler: within `PROXIMITY_RADIUS = 100` of the body,
set `userProximity` and record `cursorPosition`; otherwise only clear
`userProximity` (the recorded cursor position is left as it was). -/
def pointermoveStep (jm : JsMath) (p : V2) (s : SceneState) : SceneState :=
  let distance := jm.hypot (p.x - s.cat.pos.x) (p.y - s.cat.pos.y)
  if distance < 100 then
    { s with
        blackboard.userProximity := true
        blackboard.cursorPosition := some p }
  else
    { s with blackboard.userProximity := false }

/-- External inputs of one Space keypress: the `Math.random()` draw
choosing among the two behaviors and the draw for the random angle. -/
structure KeyEnv where
  rChoice : ℚ
  rAngle : ℚ

/-- Keys the `keydown` listener dispatches on. -/
inductive KeyInput where
  | space
  | arrowUp
  | arrowDown
  | arrowLeft
  | arrowRight

/-- `CatScene.triggerRandomBehavior` (Space): pick index
`floor(random()*2)`; index 0 blinks, index 1 sets a target 50 units away
in a random direction. -/
def triggerRandomBehavior (jm : JsMath) (ke : KeyEnv) (s : SceneState) :
    SceneState :=
  if ⌊ke.rChoice * 2⌋ = 0 then
    { s with animationState.eyeState := .closed }
  else
    let angle := ke.rAngle * jm.pi * 2
    { s with
        blackboard.target :=
          some ⟨s.cat.pos.x + jm.cos angle * 50, s.cat.pos.y + jm.sin angle * 50⟩ }

/-- The canvas `keydown` listener installed by `setupAccessibility`:
Space triggers a random behavior; each arrow key sets a target 100 units
away in the corresponding direction.  Note the arrow branches set only
the blackboard `target` — they touch neither `lastInteraction` nor
`isSleeping`. -/
def keydownStep (jm : JsMath) (ke : KeyEnv) (k : KeyInput) (s : SceneState) :
    SceneState :=
  match k with
  | .space => triggerRandomBehavior jm ke s
  | .arrowUp =>
      { s with blackboard.target := some ⟨s.cat.pos.x, s.cat.pos.y - 100⟩ }
  | .arrowDown =>
      { s with blackboard.target := some ⟨s.cat.pos.x, s.cat.pos.y + 100⟩ }
  | .arrowLeft =>
      { s with blackboard.target := some ⟨s.cat.pos.x - 100, s.cat.pos.y⟩ }
  | .arrowRight =>
      { s with blackboard.target := some ⟨s.cat.pos.x + 100, s.cat.pos.y⟩ }

/-- Events that can reach the mounted scene. -/
inductive SceneEvent where
  | tick (env : TickEnv)
  | pointerdown (p : V2) (now : ℤ)
  | pointermove (p : V2)
  | keydown (k : KeyInput) (ke : KeyEnv)

/-- Dispatch one event. -/
def sceneStep (jm : JsMath) (s : SceneState) : SceneEvent → SceneState
  | .tick env => sceneTick jm env s
  | .pointerdown p now => pointerdownStep p now s
  | .pointermove p => pointermoveStep jm p s
  | .keydown k ke => keydownStep jm ke k s

/-- Run an event sequence. -/
def sceneRun (jm : JsMath) (s : SceneState) (es : List SceneEvent) :
    SceneState :=
  es.foldl (sceneStep jm) s

/-- Texture resources right after `create()`: the initial idle texture
(`generateIdleTexture(0, 'open')`) has been generated, requested under the
key `cat-initial`, and its image load has completed successfully. -/
def initTexResources (jm : JsMath) : SVGTextureManager × TextureBackend :=
  let m0 : SVGTextureManager := ⟨[], []⟩
  let b0 : TextureBackend := ⟨[], [], [], []⟩
  let r1 := generateIdleTexture jm m0 0 .opened
  let r2 := createTextureFromSVG r1.2 b0 "cat-initial" r1.1
  (r2.1, imageLoadComplete r2.2 "cat-initial" false)

/-- Scene state right after `create()` on a `width × height` viewport with
mount time `t0`: the initial idle texture `cat-initial` is realized and
displayed; the body rests at the viewport center; the animation state
matches the source field initializers (`currentTexture: 'idle'`;
`lastInteraction` is the construction-time `Date.now()`). -/
def initState (jm : JsMath) (width height : ℚ) (t0 : ℤ) : SceneState :=
  { width := width
    height := height
    blackboard := ⟨none, false, false, none⟩
    animationState :=
      { frame := 0, blinkTimer := 0, breathingPhase := 0, tailSwayPhase := 0,
        lastInteraction := t0, isMoving := false, isSleeping := false,
        eyeState := .opened, currentTexture := "idle" }
    cat := ⟨⟨width / 2, height / 2⟩, ⟨0, 0⟩, "cat-initial"⟩
    svgTextureManager := (initTexResources jm).1
    textures := (initTexResources jm).2 }

/-- `Math.random()` draws lie in `[0, 1)`. -/
def inUnitInterval (r : ℚ) : Bool := decide (0 ≤ r) && decide (r < 1)

/-- Realism certificate for the external inputs one tick consumes, checked
at the pre-tick state `s`: all random draws lie in `[0,1)`, the delta is
nonnegative, and the `Math.hypot` / `Math.cos` / `Math.sin` values the
tick reads satisfy their defining properties at exactly the arguments the
code passes (the target offset, the current velocity, the offset from the
viewport center, the two wander angles, and the post-tree velocity used
by `updateCatTexture`). -/
def tickObsOk (jm : JsMath) (env : TickEnv) (s : SceneState) : Bool :=
  let s3 := stateAtTree env s
  inUnitInterval env.rBlink && inUnitInterval env.rProxBlink &&
  inUnitInterval env.rWanderCenter && inUnitInterval env.rWanderCenterSpeed &&
  inUnitInterval env.rWanderMove && inUnitInterval env.rWanderAngle &&
  inUnitInterval env.rWanderSpeed && decide (0 ≤ env.delta) &&
  (match s3.blackboard.target with
   | none => true
   | some t =>
       decide (HypotOk jm (t.x - s3.cat.pos.x) (t.y - s3.cat.pos.y))) &&
  decide (HypotOk jm s3.cat.vel.x s3.cat.vel.y) &&
  decide (HypotOk jm (s3.cat.pos.x - s3.width / 2) (s3.cat.pos.y - s3.height / 2)) &&
  decide (CosSinOk jm
    (jm.atan2 (s3.height / 2 - s3.cat.pos.y) (s3.width / 2 - s3.cat.pos.x))) &&
  decide (CosSinOk jm (env.rWanderAngle * jm.pi * 2)) &&
  (let v := ((treeTick jm env s3).2).cat.vel
   decide (HypotOk jm v.x v.y))

/-- Realism certificate for one event arriving at wall-clock lower bound
`t` in state `s`. -/
def eventOk (jm : JsMath) (t : ℤ) (s : SceneState) : SceneEvent → Bool
  | .tick env => decide (t ≤ env.now) && tickObsOk jm env s
  | .pointerdown _ now => decide (t ≤ now)
  | .pointermove p =>
      decide (HypotOk jm (p.x - s.cat.pos.x) (p.y - s.cat.pos.y))
  | .keydown k ke =>
      match k with
      | .space =>
          inUnitInterval ke.rChoice && inUnitInterval ke.rAngle &&
          decide (CosSinOk jm (ke.rAngle * jm.pi * 2))
      | _ => true

/-- Wall-clock lower bound after an event. -/
def eventTime (t : ℤ) : SceneEvent → ℤ
  | .tick env => env.now
  | .pointerdown _ now => now
  | .pointermove _ => t
  | .keydown _ _ => t

/-- An event trace is realistic when every event's external inputs are
realistic at the state where it arrives and wall-clock readings never
decrease. -/
def traceOk (jm : JsMath) : ℤ → SceneState → List SceneEvent → Bool
  | _, _, [] => true
  | t, s, e :: es =>
      eventOk jm t s e && traceOk jm (eventTime t e) (sceneStep jm s e) es

/-- A concrete JavaScript-math record used to evaluate the model on
explicit inputs: exact on the axis-aligned arguments those inputs
produce (`hypot` of a vector with a zero component, `cos`/`sin` pairs
constantly on the unit circle). -/
def jsMathW : JsMath :=
  { sin := fun _ => 0
    cos := fun _ => 1
    hypot := fun x y => if x = 0 then y else if y = 0 then x else 0
    atan2 := fun _ _ => 0
    pi := 157 / 50 }

/-- Scaling a normalized direction vector by `ns` yields a vector whose
squared magnitude is `ns²`. -/
theorem normalized_scale_sq (dx dy dist ns : ℚ) (hne : dist ≠ 0)
    (h2 : dist ^ 2 = dx ^ 2 + dy ^ 2) :
    (dx / dist * ns) ^ 2 + (dy / dist * ns) ^ 2 = ns ^ 2 := by
  field_simp
  linear_combination ns ^ 2 * h2.symm

/-! ### Helper lemmas -/

/-- A declining `EnhancedMoveToTarget` leaves the scene unchanged. -/
theorem enhancedMoveToTargetTick_failure_eq (jm : JsMath) (env : TickEnv)
    (s : SceneState) (h : (enhancedMoveToTargetTick jm env s).1 = .failure) :
    (enhancedMoveToTargetTick jm env s).2 = s := by
  unfold enhancedMoveToTargetTick at h ⊢
  cases htg : s.blackboard.target with
  | none => simp [htg]
  | some t => simp only [htg] at h ⊢; split_ifs at h ⊢ <;> simp_all

/-- A declining `ProximityResponse` leaves the scene unchanged. -/
theorem proximityResponseTick_failure_eq (env : TickEnv) (s : SceneState)
    (h : (proximityResponseTick env s).1 = .failure) :
    (proximityResponseTick env s).2 = s := by
  unfold proximityResponseTick at h ⊢
  split_ifs at h ⊢ <;> simp_all

/-- A declining `SleepMode` leaves the scene unchanged. -/
theorem sleepModeTick_failure_eq (env : TickEnv) (s : SceneState)
    (h : (sleepModeTick env s).1 = .failure) :
    (sleepModeTick env s).2 = s := by
  unfold sleepModeTick at h ⊢
  dsimp only at h ⊢
  split_ifs at h ⊢ <;> simp_all

/-! ### Claims -/

/-- Claim C1: on every behavior-tree tick the four nodes are evaluated in
the fixed order MoveToTarget, ProximityResponse, SleepMode, Wander, and
the first node that does not return FAILURE consumes the tick: the whole
tree's result (status and state, hence any velocity command) is exactly
that node's result, and lower-priority nodes are not executed. -/
theorem treeTick_fixed_priority_first_nonfailure_wins (jm : JsMath)
    (env : TickEnv) (s : SceneState) :
    treeChildren jm env =
      [enhancedMoveToTargetTick jm env, proximityResponseTick env,
       sleepModeTick env, enhancedWanderTick jm env] ∧
    treeTick jm env s =
      (if (enhancedMoveToTargetTick jm env s).1 ≠ .failure then
        enhancedMoveToTargetTick jm env s
      else if (proximityResponseTick env s).1 ≠ .failure then
        proximityResponseTick env s
      else if (sleepModeTick env s).1 ≠ .failure then
        sleepModeTick env s
      else
        enhancedWanderTick jm env s) := by
  refine ⟨rfl, ?_⟩
  by_cases h1 : (enhancedMoveToTargetTick jm env s).1 = B3Status.failure
  · have e1 := enhancedMoveToTargetTick_failure_eq jm env s h1
    by_cases h2 : (proximityResponseTick env s).1 = B3Status.failure
    · have e2 := proximityResponseTick_failure_eq env s h2
      by_cases h3 : (sleepModeTick env s).1 = B3Status.failure
      · have e3 := sleepModeTick_failure_eq env s h3
        by_cases h4 : (enhancedWanderTick jm env s).1 = B3Status.failure
        · simp [treeTick, treeChildren, priorityTick, h1, h2, h3, e1, e2, e3,
            Prod.ext_iff, h4]
        · simp only [treeTick, treeChildren, priorityTick, h1, h2, h3, e1, e2, e3,
            if_true, ne_eq, h4, not_false_eq_true, if_false, ite_not]
      · simp [treeTick, treeChildren, priorityTick, h1, h2, h3, e1, e2]
    · simp [treeTick, treeChildren, priorityTick, h1, h2, e1]
  · simp [treeTick, treeChildren, priorityTick, h1]

/-- The speed the seek behavior commands on a non-arrival tick
(`newSpeed = min(currentSpeed + acceleration, min(maxSpeed, dist * 0.05))`
with `maxSpeed = 3`, `acceleration = 0.1`). -/
def seekNewSpeed (currentSpeed dist : ℚ) : ℚ :=
  min (currentSpeed + 1 / 10) (min 3 (dist * (1 / 20)))

/-- A fixed per-tick environment for evaluating concrete runs: `now = 0`,
a 16 ms delta, all random draws `1/2` except the wander angle draw `0`,
and no texture-registration failures. -/
def tickEnvW : TickEnv :=
  { now := 0, delta := 16, rBlink := 1 / 2, rProxBlink := 1 / 2,
    rWanderCenter := 1 / 2, rWanderCenterSpeed := 1 / 2,
    rWanderMove := 1 / 2, rWanderAngle := 0, rWanderSpeed := 1 / 2,
    loadFails := false }

/-- A concrete freshly-created scene on an 800×600 viewport mounted at
time 0; the body rests at the center (400, 300). -/
def baseState : SceneState := initState jsMathW 800 600 0

/-- Claim C2, amended: on a tick where the seek behavior drives motion
(target set, anticipation already played, distance at least
`ARRIVAL_RADIUS = 10`), the commanded velocity has magnitude exactly
`min(currentSpeed + 0.1, min(3, dist * 0.05))`; this is bounded by
`min(maxSpeed, dist * 0.05)` (non-strictly — the bound is attained),
grows by at most `acceleration = 0.1` per tick, is nonnegative, and is
non-decreasing exactly when the current speed does not already exceed
`min(maxSpeed, dist * 0.05)` (when it does, the behavior decelerates). -/
theorem moveToTarget_speed_ramp (jm : JsMath) (env : TickEnv) (s : SceneState)
    (t : V2) (ht : s.blackboard.target = some t)
    (ha : s.blackboard.anticipationStarted = true)
    (hd10 : ¬ jm.hypot (t.x - s.cat.pos.x) (t.y - s.cat.pos.y) < 10)
    (hdok : HypotOk jm (t.x - s.cat.pos.x) (t.y - s.cat.pos.y))
    (hcs : HypotOk jm s.cat.vel.x s.cat.vel.y) :
    (enhancedMoveToTargetTick jm env s).1 = .running ∧
    ((enhancedMoveToTargetTick jm env s).2.cat.vel.x) ^ 2 +
        ((enhancedMoveToTargetTick jm env s).2.cat.vel.y) ^ 2 =
      (seekNewSpeed (jm.hypot s.cat.vel.x s.cat.vel.y)
        (jm.hypot (t.x - s.cat.pos.x) (t.y - s.cat.pos.y))) ^ 2 ∧
    seekNewSpeed (jm.hypot s.cat.vel.x s.cat.vel.y)
        (jm.hypot (t.x - s.cat.pos.x) (t.y - s.cat.pos.y)) ≤
      min 3 ((jm.hypot (t.x - s.cat.pos.x) (t.y - s.cat.pos.y)) * (1 / 20)) ∧
    seekNewSpeed (jm.hypot s.cat.vel.x s.cat.vel.y)
        (jm.hypot (t.x - s.cat.pos.x) (t.y - s.cat.pos.y)) ≤
      jm.hypot s.cat.vel.x s.cat.vel.y + 1 / 10 ∧
    0 ≤ seekNewSpeed (jm.hypot s.cat.vel.x s.cat.vel.y)
        (jm.hypot (t.x - s.cat.pos.x) (t.y - s.cat.pos.y)) ∧
    (jm.hypot s.cat.vel.x s.cat.vel.y ≤
        min 3 ((jm.hypot (t.x - s.cat.pos.x) (t.y - s.cat.pos.y)) * (1 / 20)) →
      jm.hypot s.cat.vel.x s.cat.vel.y ≤
        seekNewSpeed (jm.hypot s.cat.vel.x s.cat.vel.y)
          (jm.hypot (t.x - s.cat.pos.x) (t.y - s.cat.pos.y))) := by
  set dx := t.x - s.cat.pos.x with hdx
  set dy := t.y - s.cat.pos.y with hdy
  set dist := jm.hypot dx dy with hdisteq
  set cs := jm.hypot s.cat.vel.x s.cat.vel.y with hcseq
  have hdist10 : (10 : ℚ) ≤ dist := not_lt.mp hd10
  have hdistpos : (0 : ℚ) < dist := lt_of_lt_of_le (by norm_num) hdist10
  have hdistne : dist ≠ 0 := ne_of_gt hdistpos
  have hstep :
      enhancedMoveToTargetTick jm env s =
        (.running,
          { s with cat.vel := ⟨dx / dist * seekNewSpeed cs dist,
                               dy / dist * seekNewSpeed cs dist⟩ }) := by
    unfold enhancedMoveToTargetTick
    rw [ht]
    simp only [ha, seekNewSpeed, ← hdx, ← hdy, ← hdisteq, ← hcseq]
    rw [if_neg (by simp), if_neg hd10]
  refine ⟨by rw [hstep], ?_, min_le_right _ _, min_le_left _ _, ?_, ?_⟩
  · rw [hstep]
    exact normalized_scale_sq dx dy dist (seekNewSpeed cs dist) hdistne hdok.2
  · refine le_min (by linarith [hcs.1]) ?_
    refine le_min (by norm_num) ?_
    nlinarith [hdist10]
  · intro hle
    exact le_min (by linarith) hle

/-- Claim C2 fails as stated: with the body at (400, 300) moving at speed
3 and a target 20 units away (distance ≥ ARRIVAL_RADIUS), the next seek
tick commands velocity (1, 0) — the speed drops from 3 to 1, so the
velocity magnitude is not non-decreasing, and it equals (is not strictly
below) the bound `min(maxSpeed, distance * 0.05) = 1`. -/
theorem moveToTarget_speed_not_monotone_counterexample :
    (({ baseState with
          blackboard.target := some ⟨420, 300⟩
          blackboard.anticipationStarted := true
          cat.vel := ⟨3, 0⟩ } : SceneState).blackboard.target = some ⟨420, 300⟩) ∧
    HypotOk jsMathW (420 - 400) (300 - 300) ∧
    ¬ jsMathW.hypot (420 - 400) (300 - 300) < 10 ∧
    HypotOk jsMathW 3 0 ∧ jsMathW.hypot 3 0 = 3 ∧
    (enhancedMoveToTargetTick jsMathW tickEnvW
        { baseState with
            blackboard.target := some ⟨420, 300⟩
            blackboard.anticipationStarted := true
            cat.vel := ⟨3, 0⟩ }).2.cat.vel = ⟨1, 0⟩ ∧
    ¬ (3 : ℚ) ≤ 1 ∧
    (1 : ℚ) = min 3 (jsMathW.hypot (420 - 400) (300 - 300) * (1 / 20)) := by
  decide

/-- Claim C3: on a tick with a target set, anticipation already started,
and distance below `ARRIVAL_RADIUS = 10`, the seek behavior zeroes the
velocity, clears the target and the anticipation flag together, stamps
`lastInteraction` with the current time, and reports success. -/
theorem moveToTarget_arrival_clears_target_and_anticipation (jm : JsMath)
    (env : TickEnv) (s : SceneState) (t : V2)
    (ht : s.blackboard.target = some t)
    (ha : s.blackboard.anticipationStarted = true)
    (hd : jm.hypot (t.x - s.cat.pos.x) (t.y - s.cat.pos.y) < 10) :
    (enhancedMoveToTargetTick jm env s).1 = .success ∧
    (enhancedMoveToTargetTick jm env s).2.cat.vel = ⟨0, 0⟩ ∧
    (enhancedMoveToTargetTick jm env s).2.blackboard.target = none ∧
    (enhancedMoveToTargetTick jm env s).2.blackboard.anticipationStarted = false ∧
    (enhancedMoveToTargetTick jm env s).2.animationState.lastInteraction = env.now := by
  unfold enhancedMoveToTargetTick
  rw [ht]
  simp only [ha]
  rw [if_neg (by simp), if_pos hd]
  exact ⟨rfl, rfl, rfl, rfl, rfl⟩

/-- Witness for C3 at a concrete input: body at (400, 300), target
(403, 300) (distance 3 < 10), anticipation already started. -/
theorem moveToTarget_arrival_witness :
    (enhancedMoveToTargetTick jsMathW tickEnvW
        { baseState with
            blackboard.target := some ⟨403, 300⟩
            blackboard.anticipationStarted := true }).1 = .success ∧
    (enhancedMoveToTargetTick jsMathW tickEnvW
        { baseState with
            blackboard.target := some ⟨403, 300⟩
            blackboard.anticipationStarted := true }).2.cat.vel = ⟨0, 0⟩ ∧
    (enhancedMoveToTargetTick jsMathW tickEnvW
        { baseState with
            blackboard.target := some ⟨403, 300⟩
            blackboard.anticipationStarted := true }).2.blackboard.target = none ∧
    (enhancedMoveToTargetTick jsMathW tickEnvW
        { baseState with
            blackboard.target := some ⟨403, 300⟩
            blackboard.anticipationStarted :=
              true }).2.blackboard.anticipationStarted = false ∧
    (enhancedMoveToTargetTick jsMathW tickEnvW
        { baseState with
            blackboard.target := some ⟨403, 300⟩
            blackboard.anticipationStarted :=
              true }).2.animationState.lastInteraction = tickEnvW.now :=
  moveToTarget_arrival_clears_target_and_anticipation jsMathW tickEnvW
    { baseState with
        blackboard.target := some ⟨403, 300⟩
        blackboard.anticipationStarted := true }
    ⟨403, 300⟩ (by decide) (by decide)
    (by decide)

/-- Witness for the amended C2 at a concrete input: body at rest at
(400, 300), target (420, 300) at distance 20 ≥ 10; the commanded speed is
`min(0 + 0.1, min(3, 1)) = 0.1`. -/
theorem moveToTarget_speed_ramp_witness :
    (enhancedMoveToTargetTick jsMathW tickEnvW
        { baseState with
            blackboard.target := some ⟨420, 300⟩
            blackboard.anticipationStarted := true }).1 = .running ∧
    ((enhancedMoveToTargetTick jsMathW tickEnvW
        { baseState with
            blackboard.target := some ⟨420, 300⟩
            blackboard.anticipationStarted := true }).2.cat.vel.x) ^ 2 +
        ((enhancedMoveToTargetTick jsMathW tickEnvW
            { baseState with
                blackboard.target := some ⟨420, 300⟩
                blackboard.anticipationStarted := true }).2.cat.vel.y) ^ 2 =
      (seekNewSpeed
          (jsMathW.hypot
            ({ baseState with
                blackboard.target := some ⟨420, 300⟩
                blackboard.anticipationStarted := true } : SceneState).cat.vel.x
            ({ baseState with
                blackboard.target := some ⟨420, 300⟩
                blackboard.anticipationStarted := true } : SceneState).cat.vel.y)
          (jsMathW.hypot
            ((⟨420, 300⟩ : V2).x -
              ({ baseState with
                  blackboard.target := some ⟨420, 300⟩
                  blackboard.anticipationStarted := true } : SceneState).cat.pos.x)
            ((⟨420, 300⟩ : V2).y -
              ({ baseState with
                  blackboard.target := some ⟨420, 300⟩
                  blackboard.anticipationStarted := true } : SceneState).cat.pos.y))) ^ 2 ∧
    seekNewSpeed
        (jsMathW.hypot
          ({ baseState with
              blackboard.target := some ⟨420, 300⟩
              blackboard.anticipationStarted := true } : SceneState).cat.vel.x
          ({ baseState with
              blackboard.target := some ⟨420, 300⟩
              blackboard.anticipationStarted := true } : SceneState).cat.vel.y)
        (jsMathW.hypot
          ((⟨420, 300⟩ : V2).x -
            ({ baseState with
                blackboard.target := some ⟨420, 300⟩
                blackboard.anticipationStarted := true } : SceneState).cat.pos.x)
          ((⟨420, 300⟩ : V2).y -
            ({ baseState with
                blackboard.target := some ⟨420, 300⟩
                blackboard.anticipationStarted := true } : SceneState).cat.pos.y)) ≤
      min 3
        ((jsMathW.hypot
            ((⟨420, 300⟩ : V2).x -
              ({ baseState with
                  blackboard.target := some ⟨420, 300⟩
                  blackboard.anticipationStarted := true } : SceneState).cat.pos.x)
            ((⟨420, 300⟩ : V2).y -
              ({ baseState with
                  blackboard.target := some ⟨420, 300⟩
                  blackboard.anticipationStarted := true } : SceneState).cat.pos.y)) *
          (1 / 20)) ∧
    seekNewSpeed
        (jsMathW.hypot
          ({ baseState with
              blackboard.target := some ⟨420, 300⟩
              blackboard.anticipationStarted := true } : SceneState).cat.vel.x
          ({ baseState with
              blackboard.target := some ⟨420, 300⟩
              blackboard.anticipationStarted := true } : SceneState).cat.vel.y)
        (jsMathW.hypot
          ((⟨420, 300⟩ : V2).x -
            ({ baseState with
                blackboard.target := some ⟨420, 300⟩
                blackboard.anticipationStarted := true } : SceneState).cat.pos.x)
          ((⟨420, 300⟩ : V2).y -
            ({ baseState with
                blackboard.target := some ⟨420, 300⟩
                blackboard.anticipationStarted := true } : SceneState).cat.pos.y)) ≤
      jsMathW.hypot
          ({ baseState with
              blackboard.target := some ⟨420, 300⟩
              blackboard.anticipationStarted := true } : SceneState).cat.vel.x
          ({ baseState with
              blackboard.target := some ⟨420, 300⟩
              blackboard.anticipationStarted := true } : SceneState).cat.vel.y +
        1 / 10 ∧
    0 ≤ seekNewSpeed
        (jsMathW.hypot
          ({ baseState with
              blackboard.target := some ⟨420, 300⟩
              blackboard.anticipationStarted := true } : SceneState).cat.vel.x
          ({ baseState with
              blackboard.target := some ⟨420, 300⟩
              blackboard.anticipationStarted := true } : SceneState).cat.vel.y)
        (jsMathW.hypot
          ((⟨420, 300⟩ : V2).x -
            ({ baseState with
                blackboard.target := some ⟨420, 300⟩
                blackboard.anticipationStarted := true } : SceneState).cat.pos.x)
          ((⟨420, 300⟩ : V2).y -
            ({ baseState with
                blackboard.target := some ⟨420, 300⟩
                blackboard.anticipationStarted := true } : SceneState).cat.pos.y)) ∧
    (jsMathW.hypot
        ({ baseState with
            blackboard.target := some ⟨420, 300⟩
            blackboard.anticipationStarted := true } : SceneState).cat.vel.x
        ({ baseState with
            blackboard.target := some ⟨420, 300⟩
            blackboard.anticipationStarted := true } : SceneState).cat.vel.y ≤
        min 3
          ((jsMathW.hypot
              ((⟨420, 300⟩ : V2).x -
                ({ baseState with
                    blackboard.target := some ⟨420, 300⟩
                    blackboard.anticipationStarted := true } : SceneState).cat.pos.x)
              ((⟨420, 300⟩ : V2).y -
                ({ baseState with
                    blackboard.target := some ⟨420, 300⟩
                    blackboard.anticipationStarted := true } : SceneState).cat.pos.y)) *
            (1 / 20)) →
      jsMathW.hypot
          ({ baseState with
              blackboard.target := some ⟨420, 300⟩
              blackboard.anticipationStarted := true } : SceneState).cat.vel.x
          ({ baseState with
              blackboard.target := some ⟨420, 300⟩
              blackboard.anticipationStarted := true } : SceneState).cat.vel.y ≤
        seekNewSpeed
          (jsMathW.hypot
            ({ baseState with
                blackboard.target := some ⟨420, 300⟩
                blackboard.anticipationStarted := true } : SceneState).cat.vel.x
            ({ baseState with
                blackboard.target := some ⟨420, 300⟩
                blackboard.anticipationStarted := true } : SceneState).cat.vel.y)
          (jsMathW.hypot
            ((⟨420, 300⟩ : V2).x -
              ({ baseState with
                  blackboard.target := some ⟨420, 300⟩
                  blackboard.anticipationStarted := true } : SceneState).cat.pos.x)
            ((⟨420, 300⟩ : V2).y -
              ({ baseState with
                  blackboard.target := some ⟨420, 300⟩
                  blackboard.anticipationStarted := true } : SceneState).cat.pos.y))) :=
  moveToTarget_speed_ramp jsMathW tickEnvW
    { baseState with
        blackboard.target := some ⟨420, 300⟩
        blackboard.anticipationStarted := true }
    ⟨420, 300⟩ (by decide) (by decide)
    (by decide) (by decide)
    (by decide)

/-- Claim C9, amended: on every pointer-move event, `userProximity` is set
to true iff the cursor is within `PROXIMITY_RADIUS = 100` of the body, and
`cursorPosition` is updated to the pointer position when (and only when)
the cursor is within that radius — on a far pointer-move the stored
cursor position is left unchanged rather than updated. -/
theorem pointermove_proximity_iff_within_radius (jm : JsMath) (p : V2)
    (s : SceneState)
    (hd : HypotOk jm (p.x - s.cat.pos.x) (p.y - s.cat.pos.y)) :
    ((pointermoveStep jm p s).blackboard.userProximity = true ↔
      jm.hypot (p.x - s.cat.pos.x) (p.y - s.cat.pos.y) < 100) ∧
    (jm.hypot (p.x - s.cat.pos.x) (p.y - s.cat.pos.y) < 100 →
      (pointermoveStep jm p s).blackboard.cursorPosition = some p) ∧
    (¬ jm.hypot (p.x - s.cat.pos.x) (p.y - s.cat.pos.y) < 100 →
      (pointermoveStep jm p s).blackboard.cursorPosition =
        s.blackboard.cursorPosition) := by
  unfold pointermoveStep
  dsimp only
  split_ifs with h <;> simp [h]

/-- Witness for the amended C9: pointer at (450, 300), body at (400, 300),
distance 50 < 100 — proximity set and cursor recorded. -/
theorem pointermove_proximity_witness :
    ((pointermoveStep jsMathW ⟨450, 300⟩ baseState).blackboard.userProximity = true ↔
      jsMathW.hypot ((⟨450, 300⟩ : V2).x - baseState.cat.pos.x)
          ((⟨450, 300⟩ : V2).y - baseState.cat.pos.y) < 100) ∧
    (jsMathW.hypot ((⟨450, 300⟩ : V2).x - baseState.cat.pos.x)
          ((⟨450, 300⟩ : V2).y - baseState.cat.pos.y) < 100 →
      (pointermoveStep jsMathW ⟨450, 300⟩ baseState).blackboard.cursorPosition =
        some ⟨450, 300⟩) ∧
    (¬ jsMathW.hypot ((⟨450, 300⟩ : V2).x - baseState.cat.pos.x)
          ((⟨450, 300⟩ : V2).y - baseState.cat.pos.y) < 100 →
      (pointermoveStep jsMathW ⟨450, 300⟩ baseState).blackboard.cursorPosition =
        baseState.blackboard.cursorPosition) :=
  pointermove_proximity_iff_within_radius jsMathW ⟨450, 300⟩ baseState
    (by decide)

/-- Claim C9 fails as stated: a pointer-move at distance 200 from the body
(≥ 100) leaves `cursorPosition` unchanged (here: still unset) instead of
updating it to the pointer position, so the cursor position is not
"updated on every pointer-move event regardless of distance". -/
theorem pointermove_far_cursor_not_updated_counterexample :
    HypotOk jsMathW ((600 : ℚ) - baseState.cat.pos.x)
      ((300 : ℚ) - baseState.cat.pos.y) ∧
    ¬ jsMathW.hypot ((600 : ℚ) - baseState.cat.pos.x)
        ((300 : ℚ) - baseState.cat.pos.y) < 100 ∧
    (pointermoveStep jsMathW ⟨600, 300⟩ baseState).blackboard.cursorPosition =
      none ∧
    ¬ (pointermoveStep jsMathW ⟨600, 300⟩ baseState).blackboard.cursorPosition =
        some ⟨600, 300⟩ ∧
    (pointermoveStep jsMathW ⟨600, 300⟩ baseState).blackboard.userProximity =
      false := by
  decide

/-- Claim C10: every velocity command any behavior node issues has
magnitude at most `maxSpeed = 3`: (i) the seek ramp's squared magnitude is
at most 9 (the commanded speed is capped by `min(3, dist * 0.05)`);
(ii) arrival sets velocity to exactly (0, 0); (iii) `SleepMode` sets
velocity to exactly (0, 0); (iv) the wander center-return command has
squared magnitude `speed²` with `speed = 0.3 + r·0.3 ∈ [0.3, 0.6]`;
(v) the wander random-direction command has squared magnitude `speed²`
with `speed = 0.5 + r·0.5 ∈ [0.5, 1.0]`; both wander speeds are at most
3. -/
theorem velocity_commands_bounded_by_maxSpeed :
    (∀ (jm : JsMath) (env : TickEnv) (s : SceneState) (t : V2),
      s.blackboard.target = some t →
      s.blackboard.anticipationStarted = true →
      ¬ jm.hypot (t.x - s.cat.pos.x) (t.y - s.cat.pos.y) < 10 →
      HypotOk jm (t.x - s.cat.pos.x) (t.y - s.cat.pos.y) →
      HypotOk jm s.cat.vel.x s.cat.vel.y →
      ((enhancedMoveToTargetTick jm env s).2.cat.vel.x) ^ 2 +
          ((enhancedMoveToTargetTick jm env s).2.cat.vel.y) ^ 2 ≤ 9) ∧
    (∀ (jm : JsMath) (env : TickEnv) (s : SceneState) (t : V2),
      s.blackboard.target = some t →
      s.blackboard.anticipationStarted = true →
      jm.hypot (t.x - s.cat.pos.x) (t.y - s.cat.pos.y) < 10 →
      (enhancedMoveToTargetTick jm env s).2.cat.vel = ⟨0, 0⟩) ∧
    (∀ (env : TickEnv) (s : SceneState),
      env.now - s.animationState.lastInteraction > 30000 →
      (sleepModeTick env s).2.cat.vel = ⟨0, 0⟩) ∧
    (∀ (jm : JsMath) (env : TickEnv) (s : SceneState),
      s.animationState.isSleeping = false →
      jm.hypot (s.cat.pos.x - s.width / 2) (s.cat.pos.y - s.height / 2) >
          min s.width s.height * (2 / 5) →
      env.rWanderCenter < 1 / 50 →
      0 ≤ env.rWanderCenterSpeed → env.rWanderCenterSpeed < 1 →
      CosSinOk jm
          (jm.atan2 (s.height / 2 - s.cat.pos.y) (s.width / 2 - s.cat.pos.x)) →
      ((enhancedWanderTick jm env s).2.cat.vel.x) ^ 2 +
            ((enhancedWanderTick jm env s).2.cat.vel.y) ^ 2 =
          (3 / 10 + env.rWanderCenterSpeed * (3 / 10)) ^ 2 ∧
        3 / 10 ≤ 3 / 10 + env.rWanderCenterSpeed * (3 / 10) ∧
        3 / 10 + env.rWanderCenterSpeed * (3 / 10) ≤ 3 / 5 ∧
        ((enhancedWanderTick jm env s).2.cat.vel.x) ^ 2 +
            ((enhancedWanderTick jm env s).2.cat.vel.y) ^ 2 ≤ 9) ∧
    (∀ (jm : JsMath) (env : TickEnv) (s : SceneState),
      s.animationState.isSleeping = false →
      ¬ (jm.hypot (s.cat.pos.x - s.width / 2) (s.cat.pos.y - s.height / 2) >
            min s.width s.height * (2 / 5) ∧
          env.rWanderCenter < 1 / 50) →
      env.rWanderMove < 1 / 200 →
      0 ≤ env.rWanderSpeed → env.rWanderSpeed < 1 →
      CosSinOk jm (env.rWanderAngle * jm.pi * 2) →
      ((enhancedWanderTick jm env s).2.cat.vel.x) ^ 2 +
            ((enhancedWanderTick jm env s).2.cat.vel.y) ^ 2 =
          (1 / 2 + env.rWanderSpeed * (1 / 2)) ^ 2 ∧
        1 / 2 ≤ 1 / 2 + env.rWanderSpeed * (1 / 2) ∧
        1 / 2 + env.rWanderSpeed * (1 / 2) ≤ 1 ∧
        ((enhancedWanderTick jm env s).2.cat.vel.x) ^ 2 +
            ((enhancedWanderTick jm env s).2.cat.vel.y) ^ 2 ≤ 9) := by
  refine ⟨?seek, ?arrive, ?sleep, ?wcenter, ?wrandom⟩
  case seek =>
    intro jm env s t ht ha hd10 hdok hcs
    have hdist10 : (10 : ℚ) ≤ jm.hypot (t.x - s.cat.pos.x) (t.y - s.cat.pos.y) :=
      not_lt.mp hd10
    have hdistne : jm.hypot (t.x - s.cat.pos.x) (t.y - s.cat.pos.y) ≠ 0 := by
      intro h0; rw [h0] at hdist10; norm_num at hdist10
    have hstep :
        enhancedMoveToTargetTick jm env s =
          (.running,
            { s with cat.vel :=
                ⟨(t.x - s.cat.pos.x) / jm.hypot (t.x - s.cat.pos.x) (t.y - s.cat.pos.y) *
                    seekNewSpeed (jm.hypot s.cat.vel.x s.cat.vel.y)
                      (jm.hypot (t.x - s.cat.pos.x) (t.y - s.cat.pos.y)),
                  (t.y - s.cat.pos.y) / jm.hypot (t.x - s.cat.pos.x) (t.y - s.cat.pos.y) *
                    seekNewSpeed (jm.hypot s.cat.vel.x s.cat.vel.y)
                      (jm.hypot (t.x - s.cat.pos.x) (t.y - s.cat.pos.y))⟩ }) := by
      unfold enhancedMoveToTargetTick
      rw [ht]
      simp only [ha, seekNewSpeed]
      rw [if_neg (by simp), if_neg hd10]
    rw [hstep]
    have hmag := normalized_scale_sq (t.x - s.cat.pos.x) (t.y - s.cat.pos.y)
      (jm.hypot (t.x - s.cat.pos.x) (t.y - s.cat.pos.y))
      (seekNewSpeed (jm.hypot s.cat.vel.x s.cat.vel.y)
        (jm.hypot (t.x - s.cat.pos.x) (t.y - s.cat.pos.y)))
      hdistne hdok.2
    refine le_of_eq_of_le hmag ?_
    have hle3 : seekNewSpeed (jm.hypot s.cat.vel.x s.cat.vel.y)
        (jm.hypot (t.x - s.cat.pos.x) (t.y - s.cat.pos.y)) ≤ 3 :=
      le_trans (min_le_right _ _) (min_le_left _ _)
    have hge0 : 0 ≤ seekNewSpeed (jm.hypot s.cat.vel.x s.cat.vel.y)
        (jm.hypot (t.x - s.cat.pos.x) (t.y - s.cat.pos.y)) := by
      refine le_min (by linarith [hcs.1]) (le_min (by norm_num) (by nlinarith))
    nlinarith
  case arrive =>
    intro jm env s t ht ha hd
    unfold enhancedMoveToTargetTick
    rw [ht]
    simp only [ha]
    rw [if_neg (by simp), if_pos hd]
  case sleep =>
    intro env s h
    unfold sleepModeTick
    dsimp only
    rw [if_pos h]
  case wcenter =>
    intro jm env s hsleep hdfc hrc hr0 hr1 hcs
    have hstep :
        enhancedWanderTick jm env s =
          (.running,
            { s with cat.vel :=
                ⟨jm.cos (jm.atan2 (s.height / 2 - s.cat.pos.y) (s.width / 2 - s.cat.pos.x)) *
                    (3 / 10 + env.rWanderCenterSpeed * (3 / 10)),
                  jm.sin (jm.atan2 (s.height / 2 - s.cat.pos.y) (s.width / 2 - s.cat.pos.x)) *
                    (3 / 10 + env.rWanderCenterSpeed * (3 / 10))⟩ }) := by
      unfold enhancedWanderTick
      rw [if_neg (by simp [hsleep])]
      dsimp only
      rw [if_pos ⟨hdfc, hrc⟩]
    rw [hstep]
    dsimp only
    have hmageq :
        (jm.cos (jm.atan2 (s.height / 2 - s.cat.pos.y) (s.width / 2 - s.cat.pos.x)) *
              (3 / 10 + env.rWanderCenterSpeed * (3 / 10))) ^ 2 +
            (jm.sin (jm.atan2 (s.height / 2 - s.cat.pos.y) (s.width / 2 - s.cat.pos.x)) *
              (3 / 10 + env.rWanderCenterSpeed * (3 / 10))) ^ 2 =
          (3 / 10 + env.rWanderCenterSpeed * (3 / 10)) ^ 2 := by
      linear_combination (3 / 10 + env.rWanderCenterSpeed * (3 / 10)) ^ 2 * hcs
    refine ⟨hmageq, by linarith, by linarith, ?_⟩
    rw [hmageq]
    nlinarith [hr0, hr1]
  case wrandom =>
    intro jm env s hsleep hnot hmove hr0 hr1 hcs
    have hstep :
        enhancedWanderTick jm env s =
          (.running,
            { s with cat.vel :=
                ⟨jm.cos (env.rWanderAngle * jm.pi * 2) *
                    (1 / 2 + env.rWanderSpeed * (1 / 2)),
                  jm.sin (env.rWanderAngle * jm.pi * 2) *
                    (1 / 2 + env.rWanderSpeed * (1 / 2))⟩ }) := by
      unfold enhancedWanderTick
      rw [if_neg (by simp [hsleep])]
      dsimp only
      rw [if_neg hnot, if_pos hmove]
    rw [hstep]
    dsimp only
    have hmageq :
        (jm.cos (env.rWanderAngle * jm.pi * 2) *
              (1 / 2 + env.rWanderSpeed * (1 / 2))) ^ 2 +
            (jm.sin (env.rWanderAngle * jm.pi * 2) *
              (1 / 2 + env.rWanderSpeed * (1 / 2))) ^ 2 =
          (1 / 2 + env.rWanderSpeed * (1 / 2)) ^ 2 := by
      linear_combination (1 / 2 + env.rWanderSpeed * (1 / 2)) ^ 2 * hcs
    refine ⟨hmageq, by linarith, by linarith, ?_⟩
    rw [hmageq]
    nlinarith [hr0, hr1]

/-- The fresh scene with a target 20 units to the right and the
anticipation pose already played. -/
def seekFarState : SceneState :=
  { baseState with
      blackboard.target := some ⟨420, 300⟩
      blackboard.anticipationStarted := true }

/-- The fresh scene with a target 3 units to the right (inside the
arrival radius) and the anticipation pose already played. -/
def seekNearState : SceneState :=
  { baseState with
      blackboard.target := some ⟨403, 300⟩
      blackboard.anticipationStarted := true }

/-- The fresh scene with the body moved 300 units right of center (beyond
the wander re-centering radius 240). -/
def farFromCenterState : SceneState :=
  { baseState with cat.pos := ⟨700, 300⟩ }

/-- A tick arriving at `now = 40000` ms (more than 30000 ms after the
mount at 0). -/
def sleepEnv : TickEnv := { tickEnvW with now := 40000 }

/-- A tick whose center-return draw fires (`rWanderCenter = 0 < 0.02`). -/
def wanderCenterEnv : TickEnv := { tickEnvW with rWanderCenter := 0 }

/-- A tick whose random-wander draw fires (`rWanderMove = 0 < 0.005`). -/
def wanderMoveEnv : TickEnv := { tickEnvW with rWanderMove := 0 }

/-- Witness for C10: each branch evaluated at a concrete input — the seek
ramp 20 units from the target, arrival 3 units from the target, sleep at
`now = 40000`, the wander center-return 300 units off-center, and the
random wander at the center. -/
theorem velocity_commands_bounded_witness :
    (((enhancedMoveToTargetTick jsMathW tickEnvW seekFarState).2.cat.vel.x) ^ 2 +
        ((enhancedMoveToTargetTick jsMathW tickEnvW seekFarState).2.cat.vel.y) ^ 2 ≤ 9) ∧
    ((enhancedMoveToTargetTick jsMathW tickEnvW seekNearState).2.cat.vel = ⟨0, 0⟩) ∧
    ((sleepModeTick sleepEnv baseState).2.cat.vel = ⟨0, 0⟩) ∧
    (((enhancedWanderTick jsMathW wanderCenterEnv farFromCenterState).2.cat.vel.x) ^ 2 +
          ((enhancedWanderTick jsMathW wanderCenterEnv farFromCenterState).2.cat.vel.y) ^ 2 =
        (3 / 10 + wanderCenterEnv.rWanderCenterSpeed * (3 / 10)) ^ 2 ∧
      3 / 10 ≤ 3 / 10 + wanderCenterEnv.rWanderCenterSpeed * (3 / 10) ∧
      3 / 10 + wanderCenterEnv.rWanderCenterSpeed * (3 / 10) ≤ 3 / 5 ∧
      ((enhancedWanderTick jsMathW wanderCenterEnv farFromCenterState).2.cat.vel.x) ^ 2 +
          ((enhancedWanderTick jsMathW wanderCenterEnv farFromCenterState).2.cat.vel.y) ^ 2 ≤ 9) ∧
    (((enhancedWanderTick jsMathW wanderMoveEnv baseState).2.cat.vel.x) ^ 2 +
          ((enhancedWanderTick jsMathW wanderMoveEnv baseState).2.cat.vel.y) ^ 2 =
        (1 / 2 + wanderMoveEnv.rWanderSpeed * (1 / 2)) ^ 2 ∧
      1 / 2 ≤ 1 / 2 + wanderMoveEnv.rWanderSpeed * (1 / 2) ∧
      1 / 2 + wanderMoveEnv.rWanderSpeed * (1 / 2) ≤ 1 ∧
      ((enhancedWanderTick jsMathW wanderMoveEnv baseState).2.cat.vel.x) ^ 2 +
          ((enhancedWanderTick jsMathW wanderMoveEnv baseState).2.cat.vel.y) ^ 2 ≤ 9) :=
  ⟨velocity_commands_bounded_by_maxSpeed.1 jsMathW tickEnvW seekFarState
      ⟨420, 300⟩ (by decide) (by decide) (by decide) (by decide) (by decide),
   velocity_commands_bounded_by_maxSpeed.2.1 jsMathW tickEnvW seekNearState
      ⟨403, 300⟩ (by decide) (by decide) (by decide),
   velocity_commands_bounded_by_maxSpeed.2.2.1 sleepEnv baseState (by decide),
   velocity_commands_bounded_by_maxSpeed.2.2.2.1 jsMathW wanderCenterEnv
      farFromCenterState (by decide) (by decide) (by decide) (by decide)
      (by decide) (by decide),
   velocity_commands_bounded_by_maxSpeed.2.2.2.2 jsMathW wanderMoveEnv
      baseState (by decide) (by decide) (by decide) (by decide) (by decide)
      (by decide)⟩

/-- `EnhancedMoveToTarget` never touches the sleep flag. -/
theorem enhancedMoveToTargetTick_isSleeping (jm : JsMath) (env : TickEnv)
    (s : SceneState) :
    (enhancedMoveToTargetTick jm env s).2.animationState.isSleeping =
      s.animationState.isSleeping := by
  unfold enhancedMoveToTargetTick
  cases htg : s.blackboard.target
  · simp only [htg]
  · simp only [htg]
    split_ifs <;> rfl

/-- With a target set, `EnhancedMoveToTarget` never declines. -/
theorem enhancedMoveToTargetTick_some_not_failure (jm : JsMath)
    (env : TickEnv) (s : SceneState) (t : V2)
    (ht : s.blackboard.target = some t) :
    (enhancedMoveToTargetTick jm env s).1 ≠ .failure := by
  unfold enhancedMoveToTargetTick
  rw [ht]
  dsimp only
  split_ifs <;> simp

/-- `EnhancedWander` never touches the sleep flag. -/
theorem enhancedWanderTick_isSleeping (jm : JsMath) (env : TickEnv)
    (s : SceneState) :
    (enhancedWanderTick jm env s).2.animationState.isSleeping =
      s.animationState.isSleeping := by
  unfold enhancedWanderTick
  dsimp only
  split_ifs <;> rfl

/-- `updateCatTexture` never touches the sleep flag. -/
theorem updateCatTexture_isSleeping (jm : JsMath) (drawFails : Bool)
    (s : SceneState) :
    (updateCatTexture jm drawFails s).animationState.isSleeping =
      s.animationState.isSleeping := by
  unfold updateCatTexture
  dsimp only
  split_ifs <;> rfl

/-- The pre-tree stage of a frame (physics, frame counter, micro
animations) leaves the blackboard unchanged. -/
theorem stateAtTree_blackboard (env : TickEnv) (s : SceneState) :
    (stateAtTree env s).blackboard = s.blackboard := by
  unfold stateAtTree physicsStep updateNaturalAnimations
  dsimp only
  split_ifs <;> rfl

/-- The pre-tree stage of a frame leaves the sleep flag unchanged. -/
theorem stateAtTree_isSleeping (env : TickEnv) (s : SceneState) :
    (stateAtTree env s).animationState.isSleeping =
      s.animationState.isSleeping := by
  unfold stateAtTree physicsStep updateNaturalAnimations
  dsimp only
  split_ifs <;> rfl

/-- The pre-tree stage of a frame leaves `lastInteraction` unchanged. -/
theorem stateAtTree_lastInteraction (env : TickEnv) (s : SceneState) :
    (stateAtTree env s).animationState.lastInteraction =
      s.animationState.lastInteraction := by
  unfold stateAtTree physicsStep updateNaturalAnimations
  dsimp only
  split_ifs <;> rfl

/-- When the user is near, the proximity node consumes the tick and
clears the sleep flag. -/
theorem proximityResponseTick_wakes (env : TickEnv) (s : SceneState)
    (hp : s.blackboard.userProximity = true) :
    (proximityResponseTick env s).1 ≠ .failure ∧
      (proximityResponseTick env s).2.animationState.isSleeping = false := by
  unfold proximityResponseTick
  rw [if_pos hp]
  dsimp only
  split_ifs <;> exact ⟨by simp, rfl⟩

/-- During a behavior-tree tick the sleep flag can only turn on when no
target is pending, the user is not near, and more than 30000 ms have
elapsed since the last interaction. -/
theorem treeTick_sleep_entry_conditions (jm : JsMath) (env : TickEnv)
    (s : SceneState) (h0 : s.animationState.isSleeping = false)
    (h1 : (treeTick jm env s).2.animationState.isSleeping = true) :
    s.blackboard.target = none ∧ s.blackboard.userProximity = false ∧
      env.now - s.animationState.lastInteraction > 30000 := by
  cases htg : s.blackboard.target with
  | some t =>
      exfalso
      have hnf := enhancedMoveToTargetTick_some_not_failure jm env s t htg
      have heq : treeTick jm env s = enhancedMoveToTargetTick jm env s := by
        simp [treeTick, treeChildren, priorityTick, hnf]
      rw [heq, enhancedMoveToTargetTick_isSleeping, h0] at h1
      exact Bool.false_ne_true h1
  | none =>
      have hmf : enhancedMoveToTargetTick jm env s = (.failure, s) := by
        unfold enhancedMoveToTargetTick
        rw [htg]
      by_cases hp : s.blackboard.userProximity = true
      · exfalso
        have hw := proximityResponseTick_wakes env s hp
        have heq : treeTick jm env s = proximityResponseTick env s := by
          simp [treeTick, treeChildren, priorityTick, hmf, hw.1]
        rw [heq, hw.2] at h1
        exact Bool.false_ne_true h1
      · by_cases hs : env.now - s.animationState.lastInteraction > 30000
        · exact ⟨rfl, by simpa using hp, hs⟩
        · exfalso
          have hpf : proximityResponseTick env s = (.failure, s) := by
            unfold proximityResponseTick
            rw [if_neg hp]
          have hsf : sleepModeTick env s = (.failure, s) := by
            unfold sleepModeTick
            dsimp only
            rw [if_neg hs]
          have heq : treeTick jm env s = enhancedWanderTick jm env s := by
            simp only [treeTick, treeChildren, priorityTick, hmf, hpf, hsf]
            simp only [reduceIte]
            split_ifs with hx
            · exact Prod.ext_iff.mpr ⟨hx.symm, rfl⟩
            · rfl
          rw [heq, enhancedWanderTick_isSleeping, h0] at h1
          exact Bool.false_ne_true h1

/-- Claim C4, amended: `isSleeping` turns on during a frame only when no
movement target is pending, the user is not near, and more than 30000 ms
have elapsed since `lastInteraction`; a pointer-down immediately clears
`isSleeping` (and sets the target and interaction timestamp); a proximity
tick with no pending target immediately clears `isSleeping`.  Targets
assigned through the keyboard arrow keys, however, do NOT clear
`isSleeping` (see the counterexample), so the invariant "sleeping implies
no pending target" fails on keyboard-assigned targets. -/
theorem sleep_entry_and_wake_conditions :
    (∀ (p : V2) (now : ℤ) (s : SceneState),
      (pointerdownStep p now s).animationState.isSleeping = false ∧
      (pointerdownStep p now s).blackboard.target = some p ∧
      (pointerdownStep p now s).animationState.lastInteraction = now) ∧
    (∀ (jm : JsMath) (env : TickEnv) (s : SceneState),
      s.animationState.isSleeping = false →
      (sceneTick jm env s).animationState.isSleeping = true →
      s.blackboard.target = none ∧ s.blackboard.userProximity = false ∧
        env.now - s.animationState.lastInteraction > 30000) ∧
    (∀ (jm : JsMath) (env : TickEnv) (s : SceneState),
      s.blackboard.target = none → s.blackboard.userProximity = true →
      (treeTick jm env s).2.animationState.isSleeping = false) := by
  refine ⟨fun p now s => ⟨rfl, rfl, rfl⟩, ?_, ?_⟩
  · intro jm env s h0 h1
    have hs3sl : (stateAtTree env s).animationState.isSleeping = false := by
      rw [stateAtTree_isSleeping]; exact h0
    have h1' : (treeTick jm env (stateAtTree env s)).2.animationState.isSleeping = true := by
      unfold sceneTick at h1
      dsimp only at h1
      split_ifs at h1
      · rwa [updateCatTexture_isSleeping] at h1
      · exact h1
    obtain ⟨ha, hb, hc⟩ :=
      treeTick_sleep_entry_conditions jm env (stateAtTree env s) hs3sl h1'
    rw [stateAtTree_blackboard] at ha hb
    rw [stateAtTree_lastInteraction] at hc
    exact ⟨ha, hb, hc⟩
  · intro jm env s ht hp
    have hmf : enhancedMoveToTargetTick jm env s = (.failure, s) := by
      unfold enhancedMoveToTargetTick
      rw [ht]
    have hw := proximityResponseTick_wakes env s hp
    have heq : treeTick jm env s = proximityResponseTick env s := by
      simp [treeTick, treeChildren, priorityTick, hmf, hw.1]
    rw [heq]
    exact hw.2

/-- Witness for the amended C4: a pointer-down at (100, 100) at time 5000
on a sleeping scene wakes the cat; the untouched fresh scene falls asleep
on a tick at `now = 30001` (with no target and no proximity); a proximity
tick wakes a sleeping scene with no target. -/
theorem sleep_entry_and_wake_witness :
    ((pointerdownStep ⟨100, 100⟩ 5000
        { baseState with animationState.isSleeping := true }).animationState.isSleeping = false ∧
      (pointerdownStep ⟨100, 100⟩ 5000
          { baseState with animationState.isSleeping := true }).blackboard.target =
        some ⟨100, 100⟩ ∧
      (pointerdownStep ⟨100, 100⟩ 5000
          { baseState with animationState.isSleeping := true }).animationState.lastInteraction =
        5000) ∧
    (baseState.blackboard.target = none ∧
      baseState.blackboard.userProximity = false ∧
      ({ tickEnvW with now := 30001 } : TickEnv).now -
          baseState.animationState.lastInteraction > 30000) ∧
    ((treeTick jsMathW tickEnvW
        { baseState with
            animationState.isSleeping := true
            blackboard.userProximity := true }).2.animationState.isSleeping = false) :=
  ⟨sleep_entry_and_wake_conditions.1 ⟨100, 100⟩ 5000
      { baseState with animationState.isSleeping := true },
   sleep_entry_and_wake_conditions.2.1 jsMathW { tickEnvW with now := 30001 }
      baseState (by decide) (by decide),
   sleep_entry_and_wake_conditions.2.2 jsMathW tickEnvW
      { baseState with
          animationState.isSleeping := true
          blackboard.userProximity := true } (by decide) (by decide)⟩

/-- Claim C4 fails as stated: starting from the freshly mounted scene, one
tick at `now = 30001` puts the cat to sleep, and a subsequent ArrowUp
keydown assigns a movement target while leaving `isSleeping` set — a
reachable state in which `isSleeping` holds together with a pending
target, and an assigned target that did not clear `isSleeping`.  The
trace certificate checks the wall clock and the math-oracle values used
along the trace. -/
theorem sleeping_with_pending_target_counterexample :
    traceOk jsMathW 0 (initState jsMathW 800 600 0)
        [.tick { tickEnvW with now := 30001 },
         .keydown .arrowUp ⟨1 / 2, 1 / 2⟩] = true ∧
    (sceneRun jsMathW (initState jsMathW 800 600 0)
        [.tick { tickEnvW with now := 30001 },
         .keydown .arrowUp ⟨1 / 2, 1 / 2⟩]).animationState.isSleeping = true ∧
    (sceneRun jsMathW (initState jsMathW 800 600 0)
        [.tick { tickEnvW with now := 30001 },
         .keydown .arrowUp ⟨1 / 2, 1 / 2⟩]).blackboard.target =
      some ⟨400, 200⟩ := by
  refine ⟨by decide, by decide, by decide⟩

/-- Claim C8, amended: the sleeping branch of `updateCatTexture` leaves
`isMoving` unchanged, so entering sleep while `isMoving` is set leaves
both flags true (see the counterexample); when `updateCatTexture` runs
with `isSleeping` false it recomputes `isMoving` as `speed > 0.5`
(`MOVING_THRESHOLD`), and the two flags are mutually exclusive at every
such state. -/
theorem display_flags_exclusive_only_outside_sleep :
    (∀ (jm : JsMath) (drawFails : Bool) (s : SceneState),
      s.animationState.isSleeping = true →
      (updateCatTexture jm drawFails s).animationState.isMoving =
          s.animationState.isMoving ∧
        (updateCatTexture jm drawFails s).animationState.isSleeping = true) ∧
    (∀ (jm : JsMath) (drawFails : Bool) (s : SceneState),
      s.animationState.isSleeping = false →
      (updateCatTexture jm drawFails s).animationState.isSleeping = false ∧
        ((updateCatTexture jm drawFails s).animationState.isMoving = true ↔
          jm.hypot s.cat.vel.x s.cat.vel.y > 1 / 2) ∧
        ¬((updateCatTexture jm drawFails s).animationState.isMoving = true ∧
          (updateCatTexture jm drawFails s).animationState.isSleeping = true)) := by
  constructor
  · intro jm drawFails s hsleep
    unfold updateCatTexture
    dsimp only
    rw [if_pos hsleep]
    split_ifs <;> exact ⟨rfl, hsleep⟩
  · intro jm drawFails s hsleep
    unfold updateCatTexture
    dsimp only
    rw [if_neg (by simp [hsleep])]
    by_cases hsp : jm.hypot s.cat.vel.x s.cat.vel.y > 1 / 2
    · rw [if_pos hsp]
      split_ifs <;> simp [hsleep] <;> linarith [hsp]
    · rw [if_neg hsp]
      split_ifs <;> simp [hsleep] <;> linarith [not_lt.mp hsp]

/-- Witness for the amended C8: on a sleeping scene that still has
`isMoving` set, a texture update keeps `isMoving`; on the fresh
(non-sleeping, resting) scene a texture update computes `isMoving` from
the speed and keeps the flags exclusive. -/
theorem display_flags_exclusive_witness :
    ((updateCatTexture jsMathW false
        { baseState with
            animationState.isSleeping := true
            animationState.isMoving := true }).animationState.isMoving =
        ({ baseState with
            animationState.isSleeping := true
            animationState.isMoving := true } : SceneState).animationState.isMoving ∧
      (updateCatTexture jsMathW false
          { baseState with
              animationState.isSleeping := true
              animationState.isMoving := true }).animationState.isSleeping = true) ∧
    ((updateCatTexture jsMathW false baseState).animationState.isSleeping = false ∧
      ((updateCatTexture jsMathW false baseState).animationState.isMoving = true ↔
        jsMathW.hypot baseState.cat.vel.x baseState.cat.vel.y > 1 / 2) ∧
      ¬((updateCatTexture jsMathW false baseState).animationState.isMoving = true ∧
        (updateCatTexture jsMathW false baseState).animationState.isSleeping = true)) :=
  ⟨display_flags_exclusive_only_outside_sleep.1 jsMathW false
      { baseState with
          animationState.isSleeping := true
          animationState.isMoving := true } (by decide),
   display_flags_exclusive_only_outside_sleep.2 jsMathW false baseState (by decide)⟩

/-- Claim C8 fails as stated: from the freshly mounted scene, a wander
impulse on the third frame sets speed 0.95 > 0.5, so the frame-3 texture
update sets `isMoving := true`; a later tick at `now = 40000` enters
sleep, and the sleeping display branch never clears `isMoving` — the
resulting reachable state has `isMoving` and `isSleeping` both true.  The
trace certificate checks the wall clock and the math-oracle values used
along the trace. -/
theorem moving_and_sleeping_both_true_counterexample :
    traceOk jsMathW 0 (initState jsMathW 800 600 0)
        [.tick { tickEnvW with now := 1000 },
         .tick { tickEnvW with now := 1100 },
         .tick { tickEnvW with now := 1200, rWanderMove := 0, rWanderSpeed := 9 / 10 },
         .tick { tickEnvW with now := 40000 }] = true ∧
    (sceneRun jsMathW (initState jsMathW 800 600 0)
        [.tick { tickEnvW with now := 1000 },
         .tick { tickEnvW with now := 1100 },
         .tick { tickEnvW with now := 1200, rWanderMove := 0, rWanderSpeed := 9 / 10 },
         .tick { tickEnvW with now := 40000 }]).animationState.isMoving = true ∧
    (sceneRun jsMathW (initState jsMathW 800 600 0)
        [.tick { tickEnvW with now := 1000 },
         .tick { tickEnvW with now := 1100 },
         .tick { tickEnvW with now := 1200, rWanderMove := 0, rWanderSpeed := 9 / 10 },
         .tick { tickEnvW with now := 40000 }]).animationState.isSleeping = true := by
  refine ⟨by decide, by decide, by decide⟩

/-- Adding a fresh binding in front of an association list preserves every
existing binding. -/
theorem lookup_cons_preserve (k ck svg v : String)
    (l : List (String × String)) (h : l.lookup k = some v)
    (hck : l.lookup ck = none) : ((ck, svg) :: l).lookup k = some v := by
  have hne : (k == ck) = false := beq_eq_false_iff_ne.mpr (by
    rintro rfl
    rw [h] at hck
    exact Option.noConfusion hck)
  simpa [List.lookup, hne] using h

/-- The idle generator never drops an existing cache binding. -/
theorem generateIdleTexture_cache_preserve (jm : JsMath)
    (m : SVGTextureManager) (frame : ℕ) (e : EyeState) (k v : String)
    (h : m.textureCache.lookup k = some v) :
    ((generateIdleTexture jm m frame e).2).textureCache.lookup k = some v := by
  unfold generateIdleTexture
  dsimp only
  cases hlk : m.textureCache.lookup (idleCacheKey frame e) with
  | some s0 => simpa using h
  | none => exact lookup_cons_preserve k (idleCacheKey frame e) _ v _ h hlk

/-- The moving generator never drops an existing cache binding. -/
theorem generateMovingTexture_cache_preserve (jm : JsMath)
    (m : SVGTextureManager) (velocity : V2) (frame : ℕ) (k v : String)
    (h : m.textureCache.lookup k = some v) :
    ((generateMovingTexture jm m velocity frame).2).textureCache.lookup k = some v := by
  unfold generateMovingTexture
  dsimp only
  cases hlk : m.textureCache.lookup (movingCacheKey jm velocity frame) with
  | some s0 => simpa using h
  | none => exact lookup_cons_preserve k (movingCacheKey jm velocity frame) _ v _ h hlk

/-- The sleeping generator never drops an existing cache binding. -/
theorem generateSleepingTexture_cache_preserve (jm : JsMath)
    (m : SVGTextureManager) (frame : ℕ) (k v : String)
    (h : m.textureCache.lookup k = some v) :
    ((generateSleepingTexture jm m frame).2).textureCache.lookup k = some v := by
  unfold generateSleepingTexture
  dsimp only
  cases hlk : m.textureCache.lookup (sleepingCacheKey frame) with
  | some s0 => simpa using h
  | none => exact lookup_cons_preserve k (sleepingCacheKey frame) _ v _ h hlk

/-- Any generator call preserves existing cache bindings. -/
theorem applyTexCall_cache_preserve (jm : JsMath) (m : SVGTextureManager)
    (c : TexCall) (k v : String) (h : m.textureCache.lookup k = some v) :
    ((applyTexCall jm m c).2).textureCache.lookup k = some v := by
  cases c with
  | idle frame e => exact generateIdleTexture_cache_preserve jm m frame e k v h
  | moving velocity frame =>
      exact generateMovingTexture_cache_preserve jm m velocity frame k v h
  | sleeping frame => exact generateSleepingTexture_cache_preserve jm m frame k v h

/-- Any sequence of generator calls preserves existing cache bindings. -/
theorem runTexCalls_cache_preserve (jm : JsMath) (cs : List TexCall)
    (m : SVGTextureManager) (k v : String)
    (h : m.textureCache.lookup k = some v) :
    (runTexCalls jm m cs).textureCache.lookup k = some v := by
  induction cs generalizing m with
  | nil => exact h
  | cons c cs ih => exact ih _ (applyTexCall_cache_preserve jm m c k v h)

/-- After an idle-generator call, its key is bound to exactly the string
the call returned. -/
theorem generateIdleTexture_lookup_self (jm : JsMath) (m : SVGTextureManager)
    (frame : ℕ) (e : EyeState) :
    ((generateIdleTexture jm m frame e).2).textureCache.lookup
        (idleCacheKey frame e) = some ((generateIdleTexture jm m frame e).1) := by
  unfold generateIdleTexture
  dsimp only
  cases hlk : m.textureCache.lookup (idleCacheKey frame e) with
  | some s0 => simpa using hlk
  | none => simp [List.lookup]

/-- After a moving-generator call, its key is bound to exactly the string
the call returned. -/
theorem generateMovingTexture_lookup_self (jm : JsMath)
    (m : SVGTextureManager) (velocity : V2) (frame : ℕ) :
    ((generateMovingTexture jm m velocity frame).2).textureCache.lookup
        (movingCacheKey jm velocity frame) =
      some ((generateMovingTexture jm m velocity frame).1) := by
  unfold generateMovingTexture
  dsimp only
  cases hlk : m.textureCache.lookup (movingCacheKey jm velocity frame) with
  | some s0 => simpa using hlk
  | none => simp [List.lookup]

/-- After a sleeping-generator call, its key is bound to exactly the
string the call returned. -/
theorem generateSleepingTexture_lookup_self (jm : JsMath)
    (m : SVGTextureManager) (frame : ℕ) :
    ((generateSleepingTexture jm m frame).2).textureCache.lookup
        (sleepingCacheKey frame) =
      some ((generateSleepingTexture jm m frame).1) := by
  unfold generateSleepingTexture
  dsimp only
  cases hlk : m.textureCache.lookup (sleepingCacheKey frame) with
  | some s0 => simpa using hlk
  | none => simp [List.lookup]

/-- Claim C5: the texture generators are deterministic and the cache is
stable — for each of the three generators, calling it again with the same
inputs after any interleaving of other generator calls returns exactly
the string the first call produced (the first call either computed and
stored the string or was itself a hit; every later identical call is a
cache hit for that same stored string, byte for byte). -/
theorem texture_generation_deterministic_and_cache_stable :
    (∀ (jm : JsMath) (m : SVGTextureManager) (frame : ℕ) (e : EyeState)
        (cs : List TexCall),
      (generateIdleTexture jm
          (runTexCalls jm (generateIdleTexture jm m frame e).2 cs) frame e).1 =
        (generateIdleTexture jm m frame e).1) ∧
    (∀ (jm : JsMath) (m : SVGTextureManager) (velocity : V2) (frame : ℕ)
        (cs : List TexCall),
      (generateMovingTexture jm
          (runTexCalls jm (generateMovingTexture jm m velocity frame).2 cs)
          velocity frame).1 =
        (generateMovingTexture jm m velocity frame).1) ∧
    (∀ (jm : JsMath) (m : SVGTextureManager) (frame : ℕ) (cs : List TexCall),
      (generateSleepingTexture jm
          (runTexCalls jm (generateSleepingTexture jm m frame).2 cs) frame).1 =
        (generateSleepingTexture jm m frame).1) := by
  refine ⟨?_, ?_, ?_⟩
  · intro jm m frame e cs
    set m1 := (generateIdleTexture jm m frame e).2 with hm1
    set v1 := (generateIdleTexture jm m frame e).1 with hv1
    have h1 : m1.textureCache.lookup (idleCacheKey frame e) = some v1 :=
      generateIdleTexture_lookup_self jm m frame e
    have h2 := runTexCalls_cache_preserve jm cs m1 _ v1 h1
    unfold generateIdleTexture
    dsimp only
    rw [h2]
  · intro jm m velocity frame cs
    set m1 := (generateMovingTexture jm m velocity frame).2 with hm1
    set v1 := (generateMovingTexture jm m velocity frame).1 with hv1
    have h1 : m1.textureCache.lookup (movingCacheKey jm velocity frame) = some v1 :=
      generateMovingTexture_lookup_self jm m velocity frame
    have h2 := runTexCalls_cache_preserve jm cs m1 _ v1 h1
    unfold generateMovingTexture
    dsimp only
    rw [h2]
  · intro jm m frame cs
    set m1 := (generateSleepingTexture jm m frame).2 with hm1
    set v1 := (generateSleepingTexture jm m frame).1 with hv1
    have h1 : m1.textureCache.lookup (sleepingCacheKey frame) = some v1 :=
      generateSleepingTexture_lookup_self jm m frame
    have h2 := runTexCalls_cache_preserve jm cs m1 _ v1 h1
    unfold generateSleepingTexture
    dsimp only
    rw [h2]

/-- Removing the pending load that a successful lookup found decreases the
number of pending loads for that key by exactly one. -/
theorem countP_eraseP_of_lookup_isSome (k : String)
    (l : List (String × String)) (h : (l.lookup k).isSome) :
    (l.eraseP (fun p => p.1 == k)).countP (fun p => p.1 == k) + 1 =
      l.countP (fun p => p.1 == k) := by
  induction l with
  | nil => simp [List.lookup] at h
  | cons hd tl ih =>
      obtain ⟨a, b⟩ := hd
      by_cases ha : k = a
      · subst ha
        simp [List.eraseP_cons, List.countP_cons]
      · have hbeq : (k == a) = false := beq_eq_false_iff_ne.mpr ha
        have hbeq' : (a == k) = false := beq_eq_false_iff_ne.mpr (Ne.symm ha)
        have h' : (tl.lookup k).isSome := by
          simpa [List.lookup, hbeq] using h
        simp only [List.eraseP_cons, List.countP_cons, hbeq']
        simpa [hbeq'] using ih h'

/-- Invariant of the texture-realization layer: for every key, the number
of `addCanvas` invocations so far plus the number of in-flight loads is
at most one, and is zero unless the key has been marked in
`createdTextures`. -/
def TexInv (st : SVGTextureManager × TextureBackend) : Prop :=
  ∀ key : String,
    st.2.addCanvasLog.count key + st.2.pending.countP (fun p => p.1 == key) ≤
      (if key ∈ st.1.createdTextures then 1 else 0)

/-- The initial texture layer satisfies the invariant. -/
theorem texInit_inv : TexInv texInit := by
  intro key
  simp [texInit, List.count]

/-- Every texture-layer event preserves the invariant. -/
theorem texStep_inv (st : SVGTextureManager × TextureBackend) (e : TexEvent)
    (h : TexInv st) : TexInv (texStep st e) := by
  cases e with
  | request k svg =>
      by_cases hk : k ∈ st.1.createdTextures
      · have hstep : texStep st (.request k svg) = (st.1, st.2) := by
          simp only [texStep]
          unfold createTextureFromSVG
          rw [if_pos hk]
        intro key
        rw [hstep]
        exact h key
      · have hstep : texStep st (.request k svg) =
            ({ st.1 with createdTextures := k :: st.1.createdTextures },
             { st.2 with pending := st.2.pending ++ [(k, svg)] }) := by
          simp only [texStep]
          unfold createTextureFromSVG
          rw [if_neg hk]
        intro key
        rw [hstep]
        dsimp only
        rw [List.countP_append]
        by_cases hkey : key = k
        · subst hkey
          have h0 := h key
          rw [if_neg hk] at h0
          have hc : st.2.addCanvasLog.count key = 0 := by omega
          have hcp : st.2.pending.countP (fun p => p.1 == key) = 0 := by omega
          simp [hc, hcp, List.countP_cons]
        · have h0 := h key
          have hbeq : (k == key) = false := beq_eq_false_iff_ne.mpr (Ne.symm hkey)
          have hone : List.countP (fun p => p.1 == key) [(k, svg)] = 0 := by
            simp [List.countP_cons, hbeq]
          rw [hone, Nat.add_zero]
          have hmem : (key ∈ k :: st.1.createdTextures) ↔
              key ∈ st.1.createdTextures := by
            simp [List.mem_cons, hkey]
          rw [if_congr hmem rfl rfl]
          exact h0
  | complete k fails =>
      by_cases hpend : (st.2.pending.lookup k).isSome
      · have hco' := countP_eraseP_of_lookup_isSome k st.2.pending hpend
        have hsub := List.eraseP_sublist (p := fun p => p.1 == k) (l := st.2.pending)
        cases fails with
        | true =>
            have hstep : texStep st (.complete k true) =
                (st.1,
                 { st.2 with
                    pending := st.2.pending.eraseP (fun p => p.1 == k)
                    warnLog := st.2.warnLog ++ [s!"Failed to create texture {k}"] }) := by
              simp only [texStep]
              unfold imageLoadComplete
              rw [if_pos hpend]
              dsimp only
              unfold realizeAttempt
              rw [if_pos rfl]
            intro key
            rw [hstep]
            dsimp only
            have h0 := h key
            by_cases hkey : key = k
            · subst hkey
              omega
            · have hle := hsub.countP_le (fun p => p.1 == key)
              omega
        | false =>
            by_cases hph : k ∈ st.2.phaserTextures
            · have hstep : texStep st (.complete k false) =
                  (st.1,
                   { st.2 with
                      pending := st.2.pending.eraseP (fun p => p.1 == k) }) := by
                simp only [texStep]
                unfold imageLoadComplete
                rw [if_pos hpend]
                dsimp only
                unfold realizeAttempt
                rw [if_neg (by simp), if_pos hph]
              intro key
              rw [hstep]
              dsimp only
              have h0 := h key
              by_cases hkey : key = k
              · subst hkey
                omega
              · have hle := hsub.countP_le (fun p => p.1 == key)
                omega
            · have hstep : texStep st (.complete k false) =
                  (st.1,
                   { st.2 with
                      pending := st.2.pending.eraseP (fun p => p.1 == k)
                      phaserTextures := k :: st.2.phaserTextures
                      addCanvasLog := st.2.addCanvasLog ++ [k] }) := by
                simp only [texStep]
                unfold imageLoadComplete
                rw [if_pos hpend]
                dsimp only
                unfold realizeAttempt
                rw [if_neg (by simp), if_neg hph]
              intro key
              rw [hstep]
              dsimp only
              rw [List.count_append]
              have h0 := h key
              by_cases hkey : key = k
              · subst hkey
                have hone : List.count key [key] = 1 := by simp
                omega
              · have hle := hsub.countP_le (fun p => p.1 == key)
                have hz : List.count key [k] = 0 := by simp [hkey]
                omega
      · have hstep : texStep st (.complete k fails) = (st.1, st.2) := by
          simp only [texStep]
          unfold imageLoadComplete
          rw [if_neg hpend]
        intro key
        rw [hstep]
        exact h key

/-- Claim C6: realized-texture registration is idempotent per key — over
any sequence of realization requests and load completions (including
duplicate requests while a first request is still in flight, and
completions arriving in any order), `textures.addCanvas` runs at most
once per key; and re-requesting an already-created key is a no-op that
succeeds immediately. -/
theorem addCanvas_at_most_once_per_key :
    (∀ (es : List TexEvent) (key : String),
      (runTexEvents es).2.addCanvasLog.count key ≤ 1) ∧
    (∀ (m : SVGTextureManager) (b : TextureBackend) (key svgContent : String),
      key ∈ m.createdTextures →
      createTextureFromSVG m b key svgContent = (m, b)) := by
  constructor
  · intro es key
    have hinv : TexInv (runTexEvents es) := by
      unfold runTexEvents
      have hgen : ∀ (l : List TexEvent) (st : SVGTextureManager × TextureBackend),
          TexInv st → TexInv (l.foldl texStep st) := by
        intro l
        induction l with
        | nil => intro st hst; exact hst
        | cons e l ih => intro st hst; exact ih _ (texStep_inv st e hst)
      exact hgen es texInit texInit_inv
    have h0 := hinv key
    have h1 : (runTexEvents es).2.addCanvasLog.count key ≤
        (if key ∈ (runTexEvents es).1.createdTextures then 1 else 0) := by
      omega
    split_ifs at h1 <;> omega
  · intro m b key svgContent hk
    unfold createTextureFromSVG
    rw [if_pos hk]

/-- Witness for C6: requesting key `k` twice while the first load is still
in flight, then completing both, registers it exactly once; and
re-requesting a key already in `createdTextures` returns the state
unchanged. -/
theorem addCanvas_at_most_once_witness :
    (runTexEvents
        [.request "k" "svg", .request "k" "svg",
         .complete "k" false, .complete "k" false]).2.addCanvasLog.count "k" ≤ 1 ∧
    createTextureFromSVG ⟨[], ["k"]⟩ ⟨[], [], [], []⟩ "k" "svg" =
      (⟨[], ["k"]⟩, ⟨[], [], [], []⟩) :=
  ⟨addCanvas_at_most_once_per_key.1
      [.request "k" "svg", .request "k" "svg",
       .complete "k" false, .complete "k" false] "k",
   addCanvas_at_most_once_per_key.2 ⟨[], ["k"]⟩ ⟨[], [], [], []⟩ "k" "svg"
      (by decide)⟩

/-- Claim C7, amended: when the draw/registration step of a texture load
throws, the `catch` converts the throw into a `console.warn` entry and no
registration happens, and the always-resolving promise means no error
reaches the render loop; however the texture swap is NOT skipped — after
`await`, `updateCatTexture` unconditionally calls `setTexture` and
records the new key in `currentTexture` (for each display branch the
recorded key is the newly derived key, failure or not), so the previously
displayed texture is not kept (the sprite falls back to the engine's
missing-texture placeholder; see the counterexample). -/
theorem texture_failure_logged_but_swap_not_skipped :
    (∀ (b : TextureBackend) (key : String),
      (b.pending.lookup key).isSome = true →
      (imageLoadComplete b key true).addCanvasLog = b.addCanvasLog ∧
      (imageLoadComplete b key true).phaserTextures = b.phaserTextures ∧
      (imageLoadComplete b key true).warnLog =
        b.warnLog ++ [s!"Failed to create texture {key}"]) ∧
    (∀ (jm : JsMath) (drawFails : Bool) (s : SceneState),
      s.animationState.isSleeping = true →
      (updateCatTexture jm drawFails s).animationState.currentTexture =
        s!"cat-sleeping-{s.animationState.frame % 60}") ∧
    (∀ (jm : JsMath) (drawFails : Bool) (s : SceneState),
      s.animationState.isSleeping = false →
      jm.hypot s.cat.vel.x s.cat.vel.y > 1 / 2 →
      (updateCatTexture jm drawFails s).animationState.currentTexture =
        s!"cat-moving-{s.animationState.frame % 60}") ∧
    (∀ (jm : JsMath) (drawFails : Bool) (s : SceneState),
      s.animationState.isSleeping = false →
      ¬ jm.hypot s.cat.vel.x s.cat.vel.y > 1 / 2 →
      (updateCatTexture jm drawFails s).animationState.currentTexture =
        s!"cat-idle-{s.animationState.frame % 60}-{s.animationState.eyeState.str}") := by
  refine ⟨?_, ?_, ?_, ?_⟩
  · intro b key hpend
    unfold imageLoadComplete
    rw [if_pos hpend]
    dsimp only
    unfold realizeAttempt
    rw [if_pos rfl]
    exact ⟨rfl, rfl, rfl⟩
  · intro jm drawFails s hsleep
    unfold updateCatTexture
    dsimp only
    rw [if_pos hsleep]
    split_ifs with hne
    all_goals first | rfl | simpa using hne
  · intro jm drawFails s hsleep hsp
    unfold updateCatTexture
    dsimp only
    rw [if_neg (by simp [hsleep]), if_pos hsp]
    split_ifs with hne
    all_goals first | rfl | simpa using hne
  · intro jm drawFails s hsleep hsp
    unfold updateCatTexture
    dsimp only
    rw [if_neg (by simp [hsleep]), if_neg hsp]
    split_ifs with hne
    all_goals first | rfl | simpa using hne

/-- The concrete key used by the C7 witness. -/
def texKeyW : String := "k"

/-- Witness for the amended C7: completing the single pending load of key
`k` with a throwing draw leaves the registry and `addCanvas` log
untouched and appends the warn entry; on the fresh scene (idle, resting,
`currentTexture = "idle"`), a failed texture update still records the new
idle key. -/
theorem texture_failure_witness :
    ((imageLoadComplete ⟨[("k", "svg")], [], [], []⟩ "k" true).addCanvasLog =
        (⟨[("k", "svg")], [], [], []⟩ : TextureBackend).addCanvasLog ∧
      (imageLoadComplete ⟨[("k", "svg")], [], [], []⟩ "k" true).phaserTextures =
        (⟨[("k", "svg")], [], [], []⟩ : TextureBackend).phaserTextures ∧
      (imageLoadComplete ⟨[("k", "svg")], [], [], []⟩ "k" true).warnLog =
        (⟨[("k", "svg")], [], [], []⟩ : TextureBackend).warnLog ++
          [s!"Failed to create texture {texKeyW}"]) ∧
    ((updateCatTexture jsMathW true baseState).animationState.currentTexture =
      s!"cat-idle-{baseState.animationState.frame % 60}-{baseState.animationState.eyeState.str}") :=
  ⟨texture_failure_logged_but_swap_not_skipped.1 ⟨[("k", "svg")], [], [], []⟩ "k"
      (by decide),
   texture_failure_logged_but_swap_not_skipped.2.2.2 jsMathW true baseState
      (by decide) (by decide)⟩

/-- Claim C7 fails as stated: on the fresh scene, a texture update whose
registration step throws logs the failure and skips `addCanvas`, but the
swap is not skipped — `currentTexture` changes from `"idle"` to
`"cat-idle-0-open"` and the sprite is switched to the engine's
missing-texture placeholder instead of keeping the previously displayed
texture. -/
theorem texture_failure_swap_counterexample :
    (updateCatTexture jsMathW true baseState).animationState.currentTexture =
      "cat-idle-0-open" ∧
    ¬ (updateCatTexture jsMathW true baseState).animationState.currentTexture =
        baseState.animationState.currentTexture ∧
    (updateCatTexture jsMathW true baseState).cat.spriteTexture = "__MISSING" ∧
    ¬ (updateCatTexture jsMathW true baseState).cat.spriteTexture =
        baseState.cat.spriteTexture ∧
    (updateCatTexture jsMathW true baseState).textures.addCanvasLog =
      baseState.textures.addCanvasLog ∧
    (updateCatTexture jsMathW true baseState).textures.warnLog =
      baseState.textures.warnLog ++ ["Failed to create texture cat-idle-0-open"] := by
  refine ⟨by decide, by decide, by decide, by decide, by decide, by decide⟩

end LonelyCat
